import Mathlib

/-!
Shallow embedding of the `store-api` edge function
(`supabase/functions/store-api/index.ts`) and proofs about it.

Modelling conventions, used throughout:

* JavaScript values flowing through the handlers (request bodies, row columns
  that are passed through untyped) are modelled by the `Json` inductive below.
* JavaScript numbers are modelled exactly where the handlers do arithmetic on
  them: all monetary amounts and counters are integers (`Int`), and the only
  divisions the source performs (`toFixed` percentages, `Math.ceil` for page
  counts) are modelled by explicit integer computations of the same value.
* The external resource store (Supabase/Postgres) is modelled as in-memory
  lists of rows, one list per table, in `Db`.  Query-builder chains
  (`.eq`, `.gte`, `.in`, `.order`, `.range`, `.single`, `.maybeSingle`)
  become the corresponding list operations.  Rows the database generates ids
  for take them from a counter in `Db`.
* The wall clock (`new Date()`) is an input: `Clock` carries the current ISO
  timestamp, the current year and the date-only string for "now minus n days".
* Lean's built-in `String.toLower`, `String.splitOn`, `String.startsWith` do
  not reduce inside the kernel, so the file defines char-list based versions
  (`jsLower`, `jsSplitSlash`, `leadsWith`) with the same behaviour on the
  ASCII strings the routes use.
-/

namespace StoreApi

/-- JSON/JavaScript values as seen by the handlers.  `num` carries an integer:
every number a claim touches is an integer, and the handlers' own arithmetic
is modelled separately with exact integers. -/
inductive Json where
  | null
  | bool (b : Bool)
  | num (n : Int)
  | str (s : String)
  | arr (elems : List Json)
  | obj (fields : List (String × Json))
deriving Repr

mutual

/-- Structural (JavaScript deep) equality test on `Json` values, used to
model the database's value comparison in `.eq` filters. -/
def Json.beq : Json → Json → Bool
  | .null, .null => true
  | .bool a, .bool b => a == b
  | .num a, .num b => a == b
  | .str a, .str b => a == b
  | .arr as, .arr bs => Json.beqList as bs
  | .obj fs, .obj gs => Json.beqFields fs gs
  | _, _ => false

/-- Pointwise equality of JSON arrays. -/
def Json.beqList : List Json → List Json → Bool
  | [], [] => true
  | a :: as, b :: bs => Json.beq a b && Json.beqList as bs
  | _, _ => false

/-- Pointwise equality of JSON object field lists. -/
def Json.beqFields : List (String × Json) → List (String × Json) → Bool
  | [], [] => true
  | (k, v) :: fs, (l, w) :: gs => k == l && Json.beq v w && Json.beqFields fs gs
  | _, _ => false

end

instance : BEq Json := ⟨Json.beq⟩

/-- Field lookup in a JSON object; `none` models the JavaScript `undefined`
of an absent property (distinct from an explicit `null`). -/
def Json.get? : Json → String → Option Json
  | .obj fields, k => (fields.find? (fun f => f.1 == k)).map (·.2)
  | _, _ => none

/-- JavaScript truthiness of a possibly-absent value (`undefined`, `null`,
`false`, `0` and `""` are falsy). -/
def truthy : Option Json → Bool
  | none => false
  | some .null => false
  | some (.bool b) => b
  | some (.num n) => !(n == 0)
  | some (.str s) => !(s == "")
  | some (.arr _) => true
  | some (.obj _) => true

/-- Length of a JavaScript value as `.length` reads it: defined for strings
and arrays, `none` (undefined) otherwise. -/
def jsLength : Json → Option Int
  | .str s => some s.data.length
  | .arr l => some l.length
  | _ => none

/-- JavaScript `.slice(0, n)`: defined for strings and arrays; on any other
value the property access throws, modelled by `none`. -/
def jsSlice (j : Json) (n : Nat) : Option Json :=
  match j with
  | .str s => some (.str (String.mk (s.data.take n)))
  | .arr l => some (.arr (l.take n))
  | _ => none

/-! ### Kernel-friendly string helpers -/

/-- Lower-case an ASCII letter, as `String.prototype.toLowerCase` does on the
status strings the handlers compare. -/
def lowChar (c : Char) : Char :=
  if 'A' ≤ c && c ≤ 'Z' then Char.ofNat (c.toNat + 32) else c

/-- Models `s.toLowerCase()` on ASCII strings. -/
def jsLower (s : String) : String := String.mk (s.data.map lowChar)

/-- Split a character list at a separator character, keeping empty pieces,
like JavaScript `String.prototype.split`. -/
def splitCharList (sep : Char) : List Char → List String
  | [] => [""]
  | a :: as =>
    let r := splitCharList sep as
    if a = sep then "" :: r
    else
      match r with
      | [] => [String.mk [a]]
      | h :: t => String.mk (a :: h.data) :: t

/-- Models `s.split("/")`. -/
def jsSplitSlash (s : String) : List String := splitCharList '/' s.data

/-- Models `s.startsWith(p)` (argument order: the candidate lead first). -/
def leadsWith (p s : String) : Bool := p.data.isPrefixOf s.data

/-- Lexicographic comparison of character lists by code point. -/
def strLeList : List Char → List Char → Bool
  | [], _ => true
  | _ :: _, [] => false
  | a :: as, b :: bs => if a = b then strLeList as bs else a.val ≤ b.val

/-- Lexicographic string order; on the ISO-8601 date strings the handlers
compare it coincides with the database's text/timestamp comparison. -/
def strLe (a b : String) : Bool := strLeList a.data b.data

/-- Digits of a character list read as a base-10 number. -/
def digitsToNat (l : List Char) : Nat :=
  l.foldl (fun a c => a * 10 + (c.toNat - 48)) 0

/-- Models JavaScript `parseInt`: an optional sign followed by leading
digits; `none` models the `NaN` result when no digit is present. -/
def jsParseInt (s : String) : Option Int :=
  match s.data with
  | '-' :: rest =>
    if (rest.takeWhile Char.isDigit).isEmpty then none
    else some (-(digitsToNat (rest.takeWhile Char.isDigit) : Int))
  | l =>
    if (l.takeWhile Char.isDigit).isEmpty then none
    else some (digitsToNat (l.takeWhile Char.isDigit))

/-- Models `parseFloat` applied to a request-body value, restricted to the
integral numbers this development models: a number stays itself, a numeric
string parses, anything else is `NaN` (`none`). -/
def jsParseNum : Json → Option Int
  | .num n => some n
  | .str s => jsParseInt s
  | _ => none

/-- Models the JavaScript `param || dflt` idiom on an optional query
parameter (an empty string is falsy and also falls back). -/
def orDefault (o : Option String) (dflt : String) : String :=
  match o with
  | some s => if s == "" then dflt else s
  | none => dflt

/-- Models `String(n).padStart(2, "0")` on the month numbers of the tax
report. -/
def pad2 (n : Int) : String :=
  let s := toString n
  if s.data.length < 2 then "0" ++ s else s

/-! ### Sorting and pagination primitives -/

/-- Insert into a sorted list, first component of an insertion sort that
models the database's `order(...)`. -/
def insertBy (le : α → α → Bool) (a : α) : List α → List α
  | [] => [a]
  | b :: bs => if le a b then a :: b :: bs else b :: insertBy le a bs

/-- Insertion sort by a boolean comparator; models the row ordering the
database applies for `order(...)`. -/
def sortBy (le : α → α → Bool) : List α → List α
  | [] => []
  | a :: as => insertBy le a (sortBy le as)

/-- Models `.range(a, b)` on an ordered result set: rows `a` through `b`
inclusive. -/
def rangeSlice (l : List α) (a b : Int) : List α :=
  (l.drop a.toNat).take (b - a + 1).toNat

/-- Models `Math.ceil(a / b)` for a row count `a` and a page size `b`.  For
`b ≤ 0` the JavaScript value is not a finite integer (`Infinity`/`NaN`);
that case is outside every claim and mapped to 0. -/
def jsCeilDiv (a : Nat) (b : Int) : Int :=
  if 0 < b then ((a + b.toNat - 1) / b.toNat : Nat) else 0

/-- Nearest integer to `a / b` (for `b > 0`), ties away from zero: the
rounding `toFixed` applies, used to model percentage strings exactly on the
rationals the source computes. -/
def roundDiv (a b : Int) : Int :=
  if 0 ≤ a then (2 * a + b) / (2 * b) else -((2 * (-a) + b) / (2 * b))

/-- Render an integer amount of hundredths as a fixed-point string with two
decimals, modelling `x.toFixed(2)` on the exact rational `x`. -/
def fixed2 (h : Int) : String :=
  let sign := if h < 0 then "-" else ""
  let a := h.natAbs
  sign ++ toString (a / 100) ++ "." ++ pad2 (a % 100)

/-- Render an integer amount of tenths as a fixed-point string with one
decimal, modelling `x.toFixed(1)` on the exact rational `x`. -/
def fixed1 (t : Int) : String :=
  let sign := if t < 0 then "-" else ""
  let a := t.natAbs
  sign ++ toString (a / 10) ++ "." ++ toString (a % 10)

/-- Models `((net / rev) * 100).toFixed(2)` for integer `net` and `rev`,
`rev > 0`: the percentage in hundredths, rounded, then rendered. -/
def pctFixed2 (net rev : Int) : String := fixed2 (roundDiv (net * 10000) rev)

/-! ### Table rows

Each structure lists exactly the columns the edge function reads or writes.
Columns whose values only pass through untyped keep type `Json`; columns the
handlers compare or compute with get the concrete type that comparison
needs. -/

/-- Row of the `stores` table. -/
structure StoreRow where
  id : String
  seller_id : String
  name : Json
  slug : Json
  bio : Json
  logo : Json
  status : Json
  visibility : Json
  updated_at : String
deriving Repr

/-- Row of the `products` table. -/
structure ProductRow where
  id : String
  store_id : String
  name : Json
  description : Json
  price : Json
  images : Json
  status : Json
  updated_at : String
deriving Repr

/-- Row of the `social_accounts` table. -/
structure SocialRow where
  id : String
  store_id : String
  platform : Json
  page_url : Json
  page_id : Json
deriving Repr

/-- Row of the `product_reviews` table. -/
structure ReviewRow where
  id : String
  seller_id : String
  product_id : String
  rating : Option Int
  status : String
  is_published : Bool
  published_at : Option String
  moderation_status : String
  seller_response : Json
  seller_responded_at : Option String
  seller_responder_id : Option String
  is_verified_purchase : Bool
  images : Json
  video_url : Json
  created_at : String
  updated_at : String
deriving Repr

/-- Row of the `review_requests` table. -/
structure ReviewRequestRow where
  id : String
  seller_id : String
  order_id : Json
  customer_id : Json
  product_ids : List String
  request_type : Json
  status : String
  sent_at : Option String
deriving Repr

/-- Row of the `seller_review_settings` table. -/
structure SettingsRow where
  seller_id : String
  review_auto_request_enabled : Bool
  review_auto_request_delay_days : Json
  review_auto_request_method : Json
  updated_at : String
deriving Repr

/-- Row of the `review_questions` table. -/
structure QuestionRow where
  id : String
  product_id : String
  is_answered : Bool
  created_at : String
deriving Repr

/-- Row of the `review_answers` table. -/
structure AnswerRow where
  id : String
  question_id : String
  answerer_id : String
  answerer_type : String
  answer : Json
  is_official : Bool
deriving Repr

/-- Row of the `transactions` table (read-only for this function). -/
structure TxRow where
  id : String
  seller_id : String
  buyer_id : Json
  amount : Option Int
  seller_payout : Option Int
  platform_fee : Option Int
  status : Option String
  item_name : Json
  product_id : Option String
  created_at : String
deriving Repr

/-- Row of the `seller_expenses` table.  `amount` is `none` when the stored
value is null/`NaN`; `Number(e.amount) || 0` reads both as 0. -/
structure ExpenseRow where
  id : String
  seller_id : String
  amount : Option Int
  category : Json
  description : Json
  vendor_name : Json
  expense_date : String
  is_tax_deductible : Bool
  status : String
  updated_at : String
deriving Repr

/-- Row of the `chat_conversations` table. -/
structure ConvRow where
  id : String
  seller_id : String
  customer_id : Json
  last_message_at : Option String
  updated_at : String
deriving Repr

/-- Row of the `chat_messages` table. -/
structure MsgRow where
  id : String
  conversation_id : String
  sender_id : String
  sender_type : String
  sender_name : Json
  message : Json
  created_at : String
deriving Repr

/-- Row of the `support_tickets` table. -/
structure TicketRow where
  id : String
  user_id : String
  subject : Json
  category : Json
  priority : Json
  status : String
  created_at : String
  updated_at : String
deriving Repr

/-- Row of the `support_messages` table. -/
structure SupportMsgRow where
  id : String
  ticket_id : String
  sender_id : String
  is_staff : Bool
  message : Json
  created_at : String
deriving Repr

/-- Row of the `profiles` table (only `name` is read). -/
structure ProfileRow where
  user_id : String
  name : Json
deriving Repr

/-- Row of the `accounting_integrations` table. -/
structure IntegrationRow where
  id : String
  seller_id : String
  provider : Json
deriving Repr

/-- The external resource store: one list per table, plus the counter the
model uses for database-generated row ids. -/
structure Db where
  stores : List StoreRow := []
  products : List ProductRow := []
  social_accounts : List SocialRow := []
  product_reviews : List ReviewRow := []
  review_requests : List ReviewRequestRow := []
  seller_review_settings : List SettingsRow := []
  review_questions : List QuestionRow := []
  review_answers : List AnswerRow := []
  transactions : List TxRow := []
  seller_expenses : List ExpenseRow := []
  chat_conversations : List ConvRow := []
  chat_messages : List MsgRow := []
  support_tickets : List TicketRow := []
  support_messages : List SupportMsgRow := []
  profiles : List ProfileRow := []
  accounting_integrations : List IntegrationRow := []
  nextId : Nat := 0
deriving Repr

/-- Take a fresh database-generated row id. -/
def takeId (db : Db) : String × Db :=
  ("row-" ++ toString db.nextId, { db with nextId := db.nextId + 1 })

/-- The wall clock, an input of the dispatcher: the current ISO timestamp
(`new Date().toISOString()`), the current year, and the date-only string of
"now minus n days" (`new Date(Date.now() - n*86400000).toISOString().slice(0,10)`). -/
structure Clock where
  nowIso : String
  year : Int
  agoDate : Nat → String

/-- Query parameters the routes read (`url.searchParams.get(...)`, `none`
for an absent parameter). -/
structure Query where
  status : Option String := none
  rating : Option String := none
  product_id : Option String := none
  sort : Option String := none
  page : Option String := none
  limit : Option String := none
  category : Option String := none
  start_date : Option String := none
  end_date : Option String := none
  period : Option String := none
  year : Option String := none
  quarter : Option String := none

/-- An incoming HTTP request: method, raw URL path, `Authorization` header,
parsed JSON body and query parameters. -/
structure Request where
  method : String
  pathname : String
  authHeader : Option String := none
  body : Json := .null
  query : Query := {}

/-- An outgoing response: HTTP status and JSON body (`Json.null` models the
body-less CORS preflight response). -/
structure Response where
  status : Nat
  body : Json
deriving Repr

/-! ### Response envelope and Supabase result helpers -/

/-- The `{ success: true, data }` envelope with status 200. -/
def okJson (d : Json) : Response :=
  ⟨200, .obj [("success", .bool true), ("data", d)]⟩

/-- The `{ success: true, data }` envelope with status 201. -/
def createdJson (d : Json) : Response :=
  ⟨201, .obj [("success", .bool true), ("data", d)]⟩

/-- The `{ success: false, error }` envelope with the given status. -/
def errJson (status : Nat) (msg : String) : Response :=
  ⟨status, .obj [("success", .bool false), ("error", .str msg)]⟩

/-- The catch-all 500 response produced when a store-layer error is thrown;
the underlying error message is modelled by an opaque constant string. -/
def dbError : Response := errJson 500 "Internal error"

/-- Value of a `.single()` / `.maybeSingle()` result as the source uses it
at the call sites that discard the error object: the data is the unique
match, and `null` both when no row and when more than one row matches
(the latter sets the discarded error). -/
def uniqueOrNone (l : List α) : Option α :=
  match l with
  | [r] => some r
  | _ => none

/-! ### Row serialization (`select("*")` and the explicit column lists) -/

/-- Serialize an optional string column. -/
def optStr : Option String → Json
  | some s => .str s
  | none => .null

/-- Serialize an optional integer column. -/
def optNum : Option Int → Json
  | some n => .num n
  | none => .null

/-- Columns of a store row as returned by `select()`. -/
def StoreRow.baseFields (s : StoreRow) : List (String × Json) :=
  [("id", .str s.id), ("seller_id", .str s.seller_id), ("name", s.name),
   ("slug", s.slug), ("bio", s.bio), ("logo", s.logo), ("status", s.status),
   ("visibility", s.visibility), ("updated_at", .str s.updated_at)]

/-- A store row as a JSON object. -/
def StoreRow.baseJson (s : StoreRow) : Json := .obj s.baseFields

/-- A social-account row as a JSON object. -/
def SocialRow.toJson (a : SocialRow) : Json :=
  .obj [("id", .str a.id), ("store_id", .str a.store_id),
        ("platform", a.platform), ("page_url", a.page_url), ("page_id", a.page_id)]

/-- A store row with its `social_accounts(*)` embed, as `GET /` returns it. -/
def StoreRow.withSocial (s : StoreRow) (accounts : List SocialRow) : Json :=
  .obj (s.baseFields ++ [("social_accounts", .arr (accounts.map SocialRow.toJson))])

/-- A product row as a JSON object. -/
def ProductRow.toJson (p : ProductRow) : Json :=
  .obj [("id", .str p.id), ("store_id", .str p.store_id), ("name", p.name),
        ("description", p.description), ("price", p.price), ("images", p.images),
        ("status", p.status), ("updated_at", .str p.updated_at)]

/-- A review row as a JSON object (no embed), as the respond/status routes
return it. -/
def ReviewRow.rowJson (r : ReviewRow) : Json :=
  .obj [("id", .str r.id), ("seller_id", .str r.seller_id),
        ("product_id", .str r.product_id), ("rating", optNum r.rating),
        ("status", .str r.status), ("is_published", .bool r.is_published),
        ("published_at", optStr r.published_at),
        ("moderation_status", .str r.moderation_status),
        ("seller_response", r.seller_response),
        ("seller_responded_at", optStr r.seller_responded_at),
        ("seller_responder_id", optStr r.seller_responder_id),
        ("is_verified_purchase", .bool r.is_verified_purchase),
        ("images", r.images), ("video_url", r.video_url),
        ("created_at", .str r.created_at), ("updated_at", .str r.updated_at)]

/-- A review row with its `products(id, name, images)` embed, as
`GET /reviews` returns it. -/
def ReviewRow.joinJson (r : ReviewRow) (products : List ProductRow) : Json :=
  .obj [("id", .str r.id), ("seller_id", .str r.seller_id),
        ("product_id", .str r.product_id), ("rating", optNum r.rating),
        ("status", .str r.status), ("is_published", .bool r.is_published),
        ("published_at", optStr r.published_at),
        ("moderation_status", .str r.moderation_status),
        ("seller_response", r.seller_response),
        ("seller_responded_at", optStr r.seller_responded_at),
        ("seller_responder_id", optStr r.seller_responder_id),
        ("is_verified_purchase", .bool r.is_verified_purchase),
        ("images", r.images), ("video_url", r.video_url),
        ("created_at", .str r.created_at), ("updated_at", .str r.updated_at),
        ("products",
          match uniqueOrNone (products.filter (fun p => p.id == r.product_id)) with
          | some p => .obj [("id", .str p.id), ("name", p.name), ("images", p.images)]
          | none => .null)]

/-- A transaction row restricted to
`select("id, item_name, created_at, product_id")`. -/
def TxRow.orderJson (t : TxRow) : Json :=
  .obj [("id", .str t.id), ("item_name", t.item_name),
        ("created_at", .str t.created_at), ("product_id", optStr t.product_id)]

/-- A seller-review-settings row as a JSON object. -/
def SettingsRow.toJson (s : SettingsRow) : Json :=
  .obj [("seller_id", .str s.seller_id),
        ("review_auto_request_enabled", .bool s.review_auto_request_enabled),
        ("review_auto_request_delay_days", s.review_auto_request_delay_days),
        ("review_auto_request_method", s.review_auto_request_method),
        ("updated_at", .str s.updated_at)]

/-- An answer row as a JSON object. -/
def AnswerRow.toJson (a : AnswerRow) : Json :=
  .obj [("id", .str a.id), ("question_id", .str a.question_id),
        ("answerer_id", .str a.answerer_id), ("answerer_type", .str a.answerer_type),
        ("answer", a.answer), ("is_official", .bool a.is_official)]

/-- A question row with its `products(id, name)` embed and the grouped
answers, as `GET /reviews/questions` returns it. -/
def QuestionRow.withAnswers (q : QuestionRow) (products : List ProductRow)
    (answers : List AnswerRow) : Json :=
  .obj [("id", .str q.id), ("product_id", .str q.product_id),
        ("is_answered", .bool q.is_answered), ("created_at", .str q.created_at),
        ("products",
          match uniqueOrNone (products.filter (fun p => p.id == q.product_id)) with
          | some p => .obj [("id", .str p.id), ("name", p.name)]
          | none => .null),
        ("answers", .arr (answers.map AnswerRow.toJson))]

/-- An expense row as a JSON object. -/
def ExpenseRow.toJson (e : ExpenseRow) : Json :=
  .obj [("id", .str e.id), ("seller_id", .str e.seller_id),
        ("amount", optNum e.amount), ("category", e.category),
        ("description", e.description), ("vendor_name", e.vendor_name),
        ("expense_date", .str e.expense_date),
        ("is_tax_deductible", .bool e.is_tax_deductible),
        ("status", .str e.status), ("updated_at", .str e.updated_at)]

/-- Columns of a conversation row. -/
def ConvRow.baseFields (c : ConvRow) : List (String × Json) :=
  [("id", .str c.id), ("seller_id", .str c.seller_id),
   ("customer_id", c.customer_id), ("last_message_at", optStr c.last_message_at),
   ("updated_at", .str c.updated_at)]

/-- A conversation row as a JSON object. -/
def ConvRow.toJson (c : ConvRow) : Json := .obj c.baseFields

/-- A chat-message row as a JSON object. -/
def MsgRow.toJson (m : MsgRow) : Json :=
  .obj [("id", .str m.id), ("conversation_id", .str m.conversation_id),
        ("sender_id", .str m.sender_id), ("sender_type", .str m.sender_type),
        ("sender_name", m.sender_name), ("message", m.message),
        ("created_at", .str m.created_at)]

/-- Columns of a support-ticket row. -/
def TicketRow.baseFields (t : TicketRow) : List (String × Json) :=
  [("id", .str t.id), ("user_id", .str t.user_id), ("subject", t.subject),
   ("category", t.category), ("priority", t.priority), ("status", .str t.status),
   ("created_at", .str t.created_at), ("updated_at", .str t.updated_at)]

/-- A support-ticket row as a JSON object. -/
def TicketRow.toJson (t : TicketRow) : Json := .obj t.baseFields

/-- A support-message row as a JSON object. -/
def SupportMsgRow.toJson (m : SupportMsgRow) : Json :=
  .obj [("id", .str m.id), ("ticket_id", .str m.ticket_id),
        ("sender_id", .str m.sender_id), ("is_staff", .bool m.is_staff),
        ("message", m.message), ("created_at", .str m.created_at)]

/-- An accounting-integrations row as a JSON object. -/
def IntegrationRow.toJson (i : IntegrationRow) : Json :=
  .obj [("id", .str i.id), ("seller_id", .str i.seller_id), ("provider", i.provider)]

/-! ### Financial aggregation (shared verbatim by the dashboard, the
profit-loss report and the tax report in the source) -/

/-- Caller-scoped, date-bounded transaction rows:
`.eq("seller_id", userId).gte("created_at", startDate).lte("created_at", endDate + "T23:59:59")`. -/
def txInRange (uid startDate endDate : String) (l : List TxRow) : List TxRow :=
  l.filter (fun t => t.seller_id == uid && strLe startDate t.created_at &&
    strLe t.created_at (endDate ++ "T23:59:59"))

/-- Rows with `(t.status || "").toLowerCase() === "completed"`. -/
def completedTx (l : List TxRow) : List TxRow :=
  l.filter (fun t => jsLower (t.status.getD "") == "completed")

/-- Rows with `(t.status || "").toLowerCase() === "refunded"`. -/
def refundedTx (l : List TxRow) : List TxRow :=
  l.filter (fun t => jsLower (t.status.getD "") == "refunded")

/-- `Number(t.seller_payout ?? t.amount ?? 0)`. -/
def payoutOrAmount (t : TxRow) : Int :=
  (match t.seller_payout with
   | some v => some v
   | none => t.amount).getD 0

/-- Revenue: sum of `seller_payout` (falling back to `amount`) over
completed rows. -/
def revenueOf (l : List TxRow) : Int :=
  (completedTx l).foldl (fun s t => s + payoutOrAmount t) 0

/-- Refunds: sum of `amount` over refunded rows. -/
def refundsOf (l : List TxRow) : Int :=
  (refundedTx l).foldl (fun s t => s + t.amount.getD 0) 0

/-- Commission: sum of `platform_fee` over completed rows. -/
def commissionOf (l : List TxRow) : Int :=
  (completedTx l).foldl (fun s t => s + t.platform_fee.getD 0) 0

/-- Caller-scoped, active, date-bounded expense rows:
`.eq("seller_id", userId).eq("status", "active").gte("expense_date", startDate).lte("expense_date", endDate)`. -/
def expensesInRange (uid startDate endDate : String) (l : List ExpenseRow) :
    List ExpenseRow :=
  l.filter (fun e => e.seller_id == uid && e.status == "active" &&
    strLe startDate e.expense_date && strLe e.expense_date endDate)

/-- Sum of `Number(e.amount) || 0` over expense rows. -/
def expensesTotal (l : List ExpenseRow) : Int :=
  l.foldl (fun s e => s + e.amount.getD 0) 0

/-- `revenue > 0 ? ((netProfit / revenue) * 100).toFixed(2) : "0"`. -/
def profitMarginStr (net rev : Int) : String :=
  if 0 < rev then pctFixed2 net rev else "0"

/-! ### Route handlers, in source order.

Each handler takes the authenticated user id (and the clock, body, query and
path parameters it reads) together with the database, and returns the
response and the database afterwards. -/

/-- `GET /` — the caller's store with its social accounts (`maybeSingle`,
error checked: more than one row for the same seller throws). -/
def hGetStore (uid : String) (db : Db) : Response × Db :=
  match db.stores.filter (fun s => s.seller_id == uid) with
  | [] => (okJson .null, db)
  | [s] =>
      (okJson (s.withSocial (db.social_accounts.filter (fun a => a.store_id == s.id))), db)
  | _ => (dbError, db)

/-- `POST /` — create the caller's store: requires `name` and `slug`,
rejects when the caller already has a store or the slug is taken (both by
pre-insert existence checks), then inserts with status `inactive` and
visibility `PRIVATE`.  The row's `updated_at` database default is the
current time. -/
def hCreateStore (clock : Clock) (uid : String) (body : Json) (db : Db) :
    Response × Db :=
  let name := body.get? "name"
  let slug := body.get? "slug"
  if !(truthy name) || !(truthy slug) then
    (errJson 400 "Name and slug are required", db)
  else if (uniqueOrNone (db.stores.filter (fun s => s.seller_id == uid))).isSome then
    (errJson 400 "User already has a store", db)
  else
    let slugJ := slug.getD .null
    if (uniqueOrNone (db.stores.filter (fun s => s.slug == slugJ))).isSome then
      (errJson 400 "Slug already taken", db)
    else
      let (newId, db1) := takeId db
      let row : StoreRow :=
        { id := newId, seller_id := uid, name := name.getD .null, slug := slugJ,
          bio := (body.get? "bio").getD .null, logo := (body.get? "logo").getD .null,
          status := .str "inactive", visibility := .str "PRIVATE",
          updated_at := clock.nowIso }
      (createdJson row.baseJson, { db1 with stores := db1.stores ++ [row] })

/-- `PUT /` — partial update of the caller's store (only present fields
change; `bio`/`logo` update on any present value, the rest on truthy
values); `.select().single()` throws when the caller has no store. -/
def hUpdateStore (clock : Clock) (uid : String) (body : Json) (db : Db) :
    Response × Db :=
  let upd := fun (s : StoreRow) =>
    if s.seller_id == uid then
      { s with
        name := if truthy (body.get? "name") then (body.get? "name").getD .null else s.name,
        slug := if truthy (body.get? "slug") then (body.get? "slug").getD .null else s.slug,
        bio := match body.get? "bio" with | some v => v | none => s.bio,
        logo := match body.get? "logo" with | some v => v | none => s.logo,
        visibility := if truthy (body.get? "visibility") then (body.get? "visibility").getD .null else s.visibility,
        status := if truthy (body.get? "status") then (body.get? "status").getD .null else s.status,
        updated_at := clock.nowIso }
    else s
  let stores2 := db.stores.map upd
  let db2 := { db with stores := stores2 }
  match stores2.filter (fun s => s.seller_id == uid) with
  | [s] => (okJson s.baseJson, db2)
  | _ => (dbError, db2)

/-- `GET /products` — the caller's products (empty list when the caller has
no store), optionally filtered by status, newest `updated_at` first. -/
def hListProducts (uid : String) (q : Query) (db : Db) : Response × Db :=
  let status := orDefault q.status "all"
  match uniqueOrNone (db.stores.filter (fun s => s.seller_id == uid)) with
  | none => (okJson (.arr []), db)
  | some store =>
    let base := db.products.filter (fun p => p.store_id == store.id)
    let base := if !(status == "all") then base.filter (fun p => p.status == Json.str status) else base
    let ordered := sortBy (fun a b => strLe b.updated_at a.updated_at) base
    (okJson (.arr (ordered.map ProductRow.toJson)), db)

/-- `POST /products` — create a product in the caller's store with status
`DRAFT`; requires a name and an existing store. -/
def hCreateProduct (clock : Clock) (uid : String) (body : Json) (db : Db) :
    Response × Db :=
  if !(truthy (body.get? "name")) then
    (errJson 400 "Product name is required", db)
  else
    match uniqueOrNone (db.stores.filter (fun s => s.seller_id == uid)) with
    | none => (errJson 400 "Create a store first", db)
    | some store =>
      let (newId, db1) := takeId db
      let row : ProductRow :=
        { id := newId, store_id := store.id,
          name := (body.get? "name").getD .null,
          description := (body.get? "description").getD .null,
          price := (body.get? "price").getD .null,
          images := if truthy (body.get? "images") then (body.get? "images").getD .null else .arr [],
          status := .str "DRAFT", updated_at := clock.nowIso }
      (createdJson row.toJson, { db1 with products := db1.products ++ [row] })

/-- `PUT /products/:id` — partial update of a product row selected by id
alone (the source applies no owner filter here); `.single()` throws when no
row has that id. -/
def hUpdateProduct (clock : Clock) (productId : String) (body : Json) (db : Db) :
    Response × Db :=
  let upd := fun (p : ProductRow) =>
    if p.id == productId then
      { p with
        name := if truthy (body.get? "name") then (body.get? "name").getD .null else p.name,
        description := match body.get? "description" with | some v => v | none => p.description,
        price := match body.get? "price" with | some v => v | none => p.price,
        images := match body.get? "images" with | some v => v | none => p.images,
        status := if truthy (body.get? "status") then (body.get? "status").getD .null else p.status,
        updated_at := clock.nowIso }
    else p
  let products2 := db.products.map upd
  let db2 := { db with products := products2 }
  match products2.filter (fun p => p.id == productId) with
  | [p] => (okJson p.toJson, db2)
  | _ => (dbError, db2)

/-- `DELETE /products/:id` — hard delete by id alone (the source applies no
owner filter here); succeeds whether or not a row matched. -/
def hDeleteProduct (productId : String) (db : Db) : Response × Db :=
  (⟨200, .obj [("success", .bool true), ("message", .str "Product deleted")]⟩,
   { db with products := db.products.filter (fun p => !(p.id == productId)) })

/-- `GET /social` — the caller's social accounts (empty list when the
caller has no store). -/
def hListSocial (uid : String) (db : Db) : Response × Db :=
  match uniqueOrNone (db.stores.filter (fun s => s.seller_id == uid)) with
  | none => (okJson (.arr []), db)
  | some store =>
    (okJson (.arr ((db.social_accounts.filter (fun a => a.store_id == store.id)).map SocialRow.toJson)), db)

/-- `POST /social` — connect a social account to the caller's store;
requires `platform` and `pageUrl` and an existing store. -/
def hCreateSocial (uid : String) (body : Json) (db : Db) : Response × Db :=
  if !(truthy (body.get? "platform")) || !(truthy (body.get? "pageUrl")) then
    (errJson 400 "Platform and pageUrl are required", db)
  else
    match uniqueOrNone (db.stores.filter (fun s => s.seller_id == uid)) with
    | none => (errJson 400 "Create a store first", db)
    | some store =>
      let (newId, db1) := takeId db
      let row : SocialRow :=
        { id := newId, store_id := store.id,
          platform := (body.get? "platform").getD .null,
          page_url := (body.get? "pageUrl").getD .null,
          page_id := (body.get? "pageId").getD .null }
      (createdJson row.toJson, { db1 with social_accounts := db1.social_accounts ++ [row] })

/-- `DELETE /social/:id` — hard delete by id alone (the source applies no
owner filter here). -/
def hDeleteSocial (accountId : String) (db : Db) : Response × Db :=
  (⟨200, .obj [("success", .bool true), ("message", .str "Account disconnected")]⟩,
   { db with social_accounts := db.social_accounts.filter (fun a => !(a.id == accountId)) })

/-- Filter chain of `GET /reviews`: the caller's reviews, optionally by
status, rating and product. -/
def reviewsFiltered (uid : String) (q : Query) (db : Db) : List ReviewRow :=
  let status := orDefault q.status "all"
  let rating := orDefault q.rating ""
  let productId := orDefault q.product_id ""
  let l := db.product_reviews.filter (fun r => r.seller_id == uid)
  let l := if !(status == "all") then l.filter (fun r => r.status == status) else l
  let l :=
    if !(rating == "") then
      l.filter (fun r =>
        match jsParseInt rating with
        | some v => r.rating == some v
        | none => false)
    else l
  if !(productId == "") then l.filter (fun r => r.product_id == productId) else l

/-- Ordering of `GET /reviews`: by rating for the two rating sorts,
otherwise newest first. -/
def reviewsSorted (uid : String) (q : Query) (db : Db) : List ReviewRow :=
  let sort := orDefault q.sort "recent"
  let l := reviewsFiltered uid q db
  if sort == "rating_high" then
    sortBy (fun a b => decide (b.rating.getD 0 ≤ a.rating.getD 0)) l
  else if sort == "rating_low" then
    sortBy (fun a b => decide (a.rating.getD 0 ≤ b.rating.getD 0)) l
  else
    sortBy (fun a b => strLe b.created_at a.created_at) l

/-- `GET /reviews` — paginated caller-scoped review listing with a
pagination object; `limit` is capped at 100.  A non-numeric `page` or
`limit` makes the range call fail, surfacing as a store-layer error. -/
def hListReviews (uid : String) (q : Query) (db : Db) : Response × Db :=
  match jsParseInt (orDefault q.page "1"),
        (jsParseInt (orDefault q.limit "50")).map (fun n => min n 100) with
  | some page, some lim =>
    let rows := reviewsSorted uid q db
    let total := rows.length
    let paged := rangeSlice rows ((page - 1) * lim) (page * lim - 1)
    (⟨200, .obj [("success", .bool true), ("data", .obj [
       ("reviews", .arr (paged.map (fun r => r.joinJson db.products))),
       ("pagination", .obj [
          ("page", .num page), ("limit", .num lim),
          ("total", .num total), ("pages", .num (jsCeilDiv total lim))])])]⟩, db)
  | _, _ => (dbError, db)

/-- `GET /reviews/analytics` — aggregate statistics over the caller's
approved reviews in a date window. -/
def hReviewAnalytics (clock : Clock) (uid : String) (q : Query) (db : Db) :
    Response × Db :=
  let startDate := orDefault q.start_date (clock.agoDate 30)
  let endDate := orDefault q.end_date (clock.nowIso.take 10)
  let productId := orDefault q.product_id ""
  let l := db.product_reviews.filter (fun r =>
    r.seller_id == uid && r.status == "approved" &&
    strLe startDate r.created_at && strLe r.created_at (endDate ++ "T23:59:59"))
  let l := if !(productId == "") then l.filter (fun r => r.product_id == productId) else l
  let total := l.length
  let sum := l.foldl (fun s r => s + r.rating.getD 0) 0
  let avgH := if 0 < total then roundDiv (sum * 100) total else 0
  let clamp := fun (r : ReviewRow) => min 5 (max 1 (r.rating.getD 0))
  let distAt := fun (k : Int) => (l.filter (fun r => clamp r == k)).length
  let withPhotos := (l.filter (fun r =>
    match r.images with | .arr (_ :: _) => true | _ => false)).length
  let withVideos := (l.filter (fun r => truthy (some r.video_url))).length
  let responded := (l.filter (fun r => truthy (some r.seller_response))).length
  (⟨200, .obj [("success", .bool true), ("data", .obj [
     ("summary", .obj [
        ("total_reviews", .num total),
        ("average_rating", .str (fixed2 avgH)),
        ("rating_distribution", .obj [
           ("1", .num (distAt 1)), ("2", .num (distAt 2)), ("3", .num (distAt 3)),
           ("4", .num (distAt 4)), ("5", .num (distAt 5))]),
        ("with_photos", .num withPhotos),
        ("with_videos", .num withVideos),
        ("response_rate", .str (if 0 < total then fixed1 (roundDiv (responded * 1000) total) else "0"))]),
     ("trend", .arr []), ("top_products", .arr [])])]⟩, db)

/-- `POST /reviews/:id/respond` — store a seller response on the caller's
review (scoped by id and seller); `.single()` throws when no row matched,
so the source's 404 branch is unreachable. -/
def hRespondReview (clock : Clock) (uid reviewId : String) (body : Json) (db : Db) :
    Response × Db :=
  let resp := body.get? "response"
  if !(truthy resp) then (errJson 400 "Response text required", db)
  else
    let upd := fun (r : ReviewRow) =>
      if r.id == reviewId && r.seller_id == uid then
        { r with seller_response := resp.getD .null,
                 seller_responded_at := some clock.nowIso,
                 seller_responder_id := some uid,
                 updated_at := clock.nowIso }
      else r
    let reviews2 := db.product_reviews.map upd
    let db2 := { db with product_reviews := reviews2 }
    match reviews2.filter (fun r => r.id == reviewId && r.seller_id == uid) with
    | [r] => (okJson r.rowJson, db2)
    | _ => (dbError, db2)

/-- `PATCH /reviews/:id/status` — moderation transition on the caller's
review (scoped by id and seller): status must be `approved` or `rejected`;
approval also publishes. -/
def hReviewStatus (clock : Clock) (uid reviewId : String) (body : Json) (db : Db) :
    Response × Db :=
  match body.get? "status" with
  | some (.str s) =>
    if !(s == "approved" || s == "rejected") then
      (errJson 400 "Status must be approved or rejected", db)
    else
      let upd := fun (r : ReviewRow) =>
        if r.id == reviewId && r.seller_id == uid then
          { r with status := s, is_published := s == "approved",
                   published_at := if s == "approved" then some clock.nowIso else none,
                   moderation_status := "reviewed", updated_at := clock.nowIso }
        else r
      let reviews2 := db.product_reviews.map upd
      let db2 := { db with product_reviews := reviews2 }
      match reviews2.filter (fun r => r.id == reviewId && r.seller_id == uid) with
      | [r] => (okJson r.rowJson, db2)
      | _ => (dbError, db2)
  | _ => (errJson 400 "Status must be approved or rejected", db)

/-- `GET /reviews/requestable-orders` — the caller's completed/delivered
transactions without an existing review request. -/
def hRequestableOrders (uid : String) (db : Db) : Response × Db :=
  let txList := (sortBy (fun a b => strLe b.created_at a.created_at)
    (db.transactions.filter (fun t => t.seller_id == uid &&
      (t.status == some "completed" || t.status == some "delivered")))).take 100
  let orderIds := txList.map (fun t => t.id)
  let existing := db.review_requests.filter (fun r => r.seller_id == uid &&
    orderIds.any (fun oid => r.order_id == Json.str oid))
  let requestedSet := existing.map (fun r => r.order_id)
  let requestable := txList.filter (fun t => !(requestedSet.contains (Json.str t.id)))
  (okJson (.arr (requestable.map TxRow.orderJson)), db)

/-- JavaScript `delay_days > 0` with numeric coercion of the body value. -/
def jsGtZero : Json → Bool
  | .num n => 0 < n
  | .bool b => b
  | .str s => match jsParseInt s with | some n => 0 < n | none => false
  | _ => false

/-- One iteration of the `POST /reviews/request` loop: skip orders that are
not the caller's, insert a review request for the rest. -/
def reviewRequestStep (clock : Clock) (uid : String) (send_via delay : Json)
    (acc : Db × Nat) (oid : Json) : Db × Nat :=
  let (dbA, n) := acc
  match uniqueOrNone (dbA.transactions.filter (fun t =>
      Json.str t.id == oid && t.seller_id == uid)) with
  | none => (dbA, n)
  | some tx =>
    let oi := uniqueOrNone (dbA.transactions.filter (fun t => Json.str t.id == oid))
    let productIds :=
      match oi with
      | some t => match t.product_id with | some p => [p] | none => []
      | none => []
    let (newId, dbB) := takeId dbA
    let row : ReviewRequestRow :=
      { id := newId, seller_id := uid, order_id := oid, customer_id := tx.buyer_id,
        product_ids := productIds, request_type := send_via,
        status := if jsGtZero delay then "pending" else "sent",
        sent_at := if jsGtZero delay then none else some clock.nowIso }
    ({ dbB with review_requests := dbB.review_requests ++ [row] }, n + 1)

/-- `POST /reviews/request` — send review requests for up to 50 of the
caller's orders; orders that are not the caller's are skipped. -/
def hReviewRequest (clock : Clock) (uid : String) (body : Json) (db : Db) :
    Response × Db :=
  match body.get? "order_ids" with
  | some (.arr ids) =>
    if ids.isEmpty then (errJson 400 "order_ids array required", db)
    else
      match uniqueOrNone (db.stores.filter (fun s => s.seller_id == uid)) with
      | none => (errJson 400 "Store not found", db)
      | some _ =>
        let send_via := (body.get? "send_via").getD (.str "email")
        let delay := (body.get? "delay_days").getD (.num 0)
        let (db2, count) := (ids.take 50).foldl (reviewRequestStep clock uid send_via delay) (db, 0)
        (⟨200, .obj [("success", .bool true), ("requests_sent", .num count)]⟩, db2)
  | _ => (errJson 400 "order_ids array required", db)

/-- `POST /reviews/auto-request/config` — upsert the caller's review
auto-request settings (`onConflict: "seller_id"`). -/
def hAutoConfigSet (clock : Clock) (uid : String) (body : Json) (db : Db) :
    Response × Db :=
  let row : SettingsRow :=
    { seller_id := uid,
      review_auto_request_enabled := truthy (body.get? "enabled"),
      review_auto_request_delay_days :=
        match body.get? "delay_days" with
        | some .null => .num 7
        | some v => v
        | none => .num 7,
      review_auto_request_method :=
        if truthy (body.get? "send_via") then (body.get? "send_via").getD .null else .str "email",
      updated_at := clock.nowIso }
  let settings2 :=
    if db.seller_review_settings.any (fun s => s.seller_id == uid) then
      db.seller_review_settings.map (fun s => if s.seller_id == uid then row else s)
    else db.seller_review_settings ++ [row]
  let db2 := { db with seller_review_settings := settings2 }
  match settings2.filter (fun s => s.seller_id == uid) with
  | [s] => (okJson s.toJson, db2)
  | _ => (dbError, db2)

/-- `GET /reviews/auto-request/config` — the caller's settings row, with a
disabled-flag default when none exists. -/
def hAutoConfigGet (uid : String) (db : Db) : Response × Db :=
  match db.seller_review_settings.filter (fun s => s.seller_id == uid) with
  | [] => (okJson (.obj [("review_auto_request_enabled", .bool false)]), db)
  | [s] => (okJson s.toJson, db)
  | _ => (dbError, db)

/-- `GET /reviews/questions` — unanswered questions on the caller's
products, with grouped answers; empty list when the caller has no store or
no products. -/
def hListQuestions (uid : String) (db : Db) : Response × Db :=
  match uniqueOrNone (db.stores.filter (fun s => s.seller_id == uid)) with
  | none => (okJson (.arr []), db)
  | some store =>
    let productIds := (db.products.filter (fun p => p.store_id == store.id)).map (fun p => p.id)
    if productIds.isEmpty then (okJson (.arr []), db)
    else
      let questions := sortBy (fun a b => strLe b.created_at a.created_at)
        (db.review_questions.filter (fun qq =>
          productIds.contains qq.product_id && qq.is_answered == false))
      let qIds := questions.map (fun qq => qq.id)
      let answers := db.review_answers.filter (fun a => qIds.contains a.question_id)
      (okJson (.arr (questions.map (fun qq =>
        qq.withAnswers db.products (answers.filter (fun a => a.question_id == qq.id))))), db)

/-- `POST /questions/:id/answer` — an official seller answer: validates the
answer length, resolves the question's product's store's seller and rejects
a non-owner with 403; on success inserts the answer and marks the question
answered. -/
def hAnswerQuestion (uid questionId : String) (body : Json) (db : Db) :
    Response × Db :=
  let ans := (body.get? "answer").getD .null
  if !(truthy (some ans)) ||
     (match jsLength ans with | some n => n < 5 | none => false) then
    (errJson 400 "Answer min 5 chars", db)
  else
    match uniqueOrNone (db.review_questions.filter (fun qq => qq.id == questionId)) with
    | none => (errJson 404 "Question not found", db)
    | some qq =>
      let product? := uniqueOrNone (db.products.filter (fun p => p.id == qq.product_id))
      let store? := uniqueOrNone (db.stores.filter (fun s =>
        match product? with | some p => s.id == p.store_id | none => false))
      match store? with
      | none => (errJson 403 "Unauthorized", db)
      | some st =>
        if !(st.seller_id == uid) then (errJson 403 "Unauthorized", db)
        else
          match jsSlice ans 2000 with
          | none => (dbError, db)
          | some sliced =>
            let (newId, db1) := takeId db
            let row : AnswerRow :=
              { id := newId, question_id := questionId, answerer_id := uid,
                answerer_type := "seller", answer := sliced, is_official := true }
            let db2 := { db1 with
              review_answers := db1.review_answers ++ [row],
              review_questions := db1.review_questions.map (fun x =>
                if x.id == questionId then { x with is_answered := true } else x) }
            (okJson row.toJson, db2)

/-- `POST /reviews/bulk-update` — apply one moderation transition to the
caller's rows among the requested ids (`.eq("seller_id", userId).in("id",
review_ids)`); the response reports the requested batch size. -/
def hBulkUpdate (clock : Clock) (uid : String) (body : Json) (db : Db) :
    Response × Db :=
  match body.get? "review_ids", body.get? "status" with
  | some (.arr ids), some (.str s) =>
    if !(s == "approved" || s == "rejected") then
      (errJson 400 "review_ids array and status required", db)
    else
      let upd := fun (r : ReviewRow) =>
        if r.seller_id == uid && ids.any (fun i => Json.str r.id == i) then
          { r with status := s, is_published := s == "approved",
                   published_at := if s == "approved" then some clock.nowIso else none,
                   moderation_status := "reviewed", updated_at := clock.nowIso }
        else r
      (⟨200, .obj [("success", .bool true), ("updated", .num ids.length)]⟩,
       { db with product_reviews := db.product_reviews.map upd })
  | _, _ => (errJson 400 "review_ids array and status required", db)

/-- Length in days of the dashboard's period window
(`period === "7d" ? 7 : ...`). -/
def periodDays (q : Query) : Nat :=
  let period := orDefault q.period "30d"
  if period == "7d" then 7 else if period == "90d" then 90
  else if period == "1y" then 365 else 30

/-- `GET /financial/dashboard` — revenue/refund/commission/expense summary
over the period window ending now. -/
def hDashboard (clock : Clock) (uid : String) (q : Query) (db : Db) :
    Response × Db :=
  let startDate := clock.agoDate (periodDays q)
  let endDate := clock.nowIso.take 10
  let rows := txInRange uid startDate endDate db.transactions
  let revenue := revenueOf rows
  let refunds := refundsOf rows
  let commission := commissionOf rows
  let expenses := expensesTotal (expensesInRange uid startDate endDate db.seller_expenses)
  let gross := revenue - refunds
  let net := gross - expenses
  (⟨200, .obj [("success", .bool true), ("data", .obj [
     ("summary", .obj [
        ("revenue", .num revenue), ("refunds", .num refunds),
        ("gross_profit", .num gross), ("commission", .num commission),
        ("payment_fees", .num 0), ("expenses", .num expenses),
        ("net_revenue", .num gross), ("net_profit", .num net),
        ("profit_margin", .str (profitMarginStr net revenue))]),
     ("trend", .arr []), ("breakdown", .arr [])])]⟩, db)

/-- Filter chain of `GET /financial/expenses`: the caller's active
expenses, optionally by category and date range. -/
def expensesFiltered (uid : String) (q : Query) (db : Db) : List ExpenseRow :=
  let category := orDefault q.category ""
  let startDate := orDefault q.start_date ""
  let endDate := orDefault q.end_date ""
  let l := db.seller_expenses.filter (fun e => e.seller_id == uid && e.status == "active")
  let l := if !(category == "") then l.filter (fun e => e.category == Json.str category) else l
  let l := if !(startDate == "") then l.filter (fun e => strLe startDate e.expense_date) else l
  if !(endDate == "") then l.filter (fun e => strLe e.expense_date endDate) else l

/-- `GET /financial/expenses` — paginated active-expense listing, newest
expense date first; `limit` is capped at 100. -/
def hListExpenses (uid : String) (q : Query) (db : Db) : Response × Db :=
  match jsParseInt (orDefault q.page "1"),
        (jsParseInt (orDefault q.limit "50")).map (fun n => min n 100) with
  | some page, some lim =>
    let rows := sortBy (fun a b => strLe b.expense_date a.expense_date) (expensesFiltered uid q db)
    let total := rows.length
    let paged := rangeSlice rows ((page - 1) * lim) (page * lim - 1)
    (⟨200, .obj [("success", .bool true), ("data", .obj [
       ("expenses", .arr (paged.map ExpenseRow.toJson)),
       ("pagination", .obj [
          ("page", .num page), ("limit", .num lim),
          ("total", .num total), ("pages", .num (jsCeilDiv total lim))])])]⟩, db)
  | _, _ => (dbError, db)

/-- `POST /financial/expenses` — create an active expense for the caller;
`amount`, `category`, `description` and `expense_date` are required.  A
`NaN` amount or a non-string date is rejected by the store layer.  The
row's `status` database default is `active`. -/
def hCreateExpense (clock : Clock) (uid : String) (body : Json) (db : Db) :
    Response × Db :=
  if !(truthy (body.get? "amount")) || !(truthy (body.get? "category")) ||
     !(truthy (body.get? "description")) || !(truthy (body.get? "expense_date")) then
    (errJson 400 "amount, category, description, expense_date required", db)
  else
    match jsParseNum ((body.get? "amount").getD .null), (body.get? "expense_date").getD .null with
    | some amt, .str d =>
      let (newId, db1) := takeId db
      let row : ExpenseRow :=
        { id := newId, seller_id := uid, amount := some amt,
          category := (body.get? "category").getD .null,
          description := (body.get? "description").getD .null,
          vendor_name := if truthy (body.get? "vendor_name") then (body.get? "vendor_name").getD .null else .null,
          expense_date := d,
          is_tax_deductible := !((body.get? "is_tax_deductible") == some (.bool false)),
          status := "active", updated_at := clock.nowIso }
      (createdJson row.toJson, { db1 with seller_expenses := db1.seller_expenses ++ [row] })
    | _, _ => (dbError, db)

/-- `PATCH /financial/expenses/:id` — partial update of the caller's
expense (scoped by id and seller); `.single()` throws when no row matched,
so the source's 404 branch is unreachable. -/
def hPatchExpense (clock : Clock) (uid expenseId : String) (body : Json) (db : Db) :
    Response × Db :=
  if (body.get? "amount").isSome && (jsParseNum ((body.get? "amount").getD .null)).isNone then
    (dbError, db)
  else if truthy (body.get? "expense_date") &&
      !(match body.get? "expense_date" with | some (.str _) => true | _ => false) then
    (dbError, db)
  else
    let upd := fun (e : ExpenseRow) =>
      if e.id == expenseId && e.seller_id == uid then
        { e with
          amount := if (body.get? "amount").isSome then jsParseNum ((body.get? "amount").getD .null) else e.amount,
          category := if truthy (body.get? "category") then (body.get? "category").getD .null else e.category,
          description := if truthy (body.get? "description") then (body.get? "description").getD .null else e.description,
          vendor_name := match body.get? "vendor_name" with | some v => v | none => e.vendor_name,
          expense_date :=
            match body.get? "expense_date" with
            | some (.str d) => if !(d == "") then d else e.expense_date
            | _ => e.expense_date,
          updated_at := clock.nowIso }
      else e
    let expenses2 := db.seller_expenses.map upd
    let db2 := { db with seller_expenses := expenses2 }
    match expenses2.filter (fun e => e.id == expenseId && e.seller_id == uid) with
    | [e] => (okJson e.toJson, db2)
    | _ => (dbError, db2)

/-- `DELETE /financial/expenses/:id` — soft delete: set the caller's
matching row's status to `deleted` (scoped by id and seller); the row is
not removed. -/
def hDeleteExpense (clock : Clock) (uid expenseId : String) (db : Db) :
    Response × Db :=
  (⟨200, .obj [("success", .bool true)]⟩,
   { db with seller_expenses := db.seller_expenses.map (fun e =>
       if e.id == expenseId && e.seller_id == uid then
         { e with status := "deleted", updated_at := clock.nowIso }
       else e) })

/-- Key under which an expense row's category is aggregated:
`e.category || "other"` coerced to an object key. -/
def jsKeyOf (j : Json) : String :=
  if truthy (some j) then
    match j with
    | .str s => s
    | .num n => toString n
    | _ => "other"
  else "other"

/-- Add an amount to a category bucket, keeping first-insertion key order
as a JavaScript object does. -/
def assocBump (l : List (String × Int)) (k : String) (v : Int) : List (String × Int) :=
  match l with
  | [] => [(k, v)]
  | (k2, v2) :: t => if k2 == k then (k2, v2 + v) :: t else (k2, v2) :: assocBump t k v

/-- `GET /financial/reports/profit-loss` — the dashboard aggregation over
an explicit date range, with a per-category expense breakdown. -/
def hProfitLoss (clock : Clock) (uid : String) (q : Query) (db : Db) :
    Response × Db :=
  let startDate := orDefault q.start_date (clock.agoDate 30)
  let endDate := orDefault q.end_date (clock.nowIso.take 10)
  let rows := txInRange uid startDate endDate db.transactions
  let revenue := revenueOf rows
  let refunds := refundsOf rows
  let commission := commissionOf rows
  let expRows := expensesInRange uid startDate endDate db.seller_expenses
  let expenses := expensesTotal expRows
  let byCategory := expRows.foldl (fun acc e => assocBump acc (jsKeyOf e.category) (e.amount.getD 0)) []
  let gross := revenue - refunds
  let net := gross - expenses
  (⟨200, .obj [("success", .bool true), ("data", .obj [
     ("period", .obj [("start", .str startDate), ("end", .str endDate)]),
     ("revenue", .obj [
        ("gross_sales", .num revenue), ("refunds", .num refunds),
        ("net_sales", .num gross)]),
     ("gross_profit", .num gross),
     ("expenses", .obj [
        ("platform_commission", .num commission),
        ("payment_processing", .num 0),
        ("operating_expenses", .num expenses),
        ("total_expenses", .num (commission + expenses)),
        ("by_category", .obj (byCategory.map (fun p => (p.1, Json.num p.2))))]),
     ("net_profit", .num net),
     ("profit_margin", .str (profitMarginStr net revenue))])]⟩, db)

/-- `GET /chat/conversations` — the caller's 50 most recent conversations,
most recent message first, conversations without messages last. -/
def hChatList (uid : String) (db : Db) : Response × Db :=
  let le := fun (a b : ConvRow) =>
    match a.last_message_at, b.last_message_at with
    | some x, some y => strLe y x
    | some _, none => true
    | none, some _ => false
    | none, none => true
  (okJson (.arr (((sortBy le (db.chat_conversations.filter (fun c => c.seller_id == uid))).take 50).map ConvRow.toJson)), db)

/-- `GET /chat/conversations/:id` — one caller-owned conversation with its
messages oldest first; 404 when it is not the caller's. -/
def hChatGet (uid convId : String) (db : Db) : Response × Db :=
  match uniqueOrNone (db.chat_conversations.filter (fun c =>
      c.id == convId && c.seller_id == uid)) with
  | none => (errJson 404 "Not found", db)
  | some c =>
    let messages := sortBy (fun a b => strLe a.created_at b.created_at)
      (db.chat_messages.filter (fun m => m.conversation_id == convId))
    (okJson (.obj (c.baseFields ++ [("messages", .arr (messages.map MsgRow.toJson))])), db)

/-- `POST /chat/conversations/:id/messages` — append a seller message to a
caller-owned conversation and bump the conversation's `last_message_at`. -/
def hChatPost (clock : Clock) (uid convId : String) (body : Json) (db : Db) :
    Response × Db :=
  let msg := (body.get? "message").getD .null
  if !(truthy (some msg)) then (errJson 400 "message required", db)
  else
    match uniqueOrNone (db.chat_conversations.filter (fun c =>
        c.id == convId && c.seller_id == uid)) with
    | none => (errJson 404 "Not found", db)
    | some _ =>
      let profile := uniqueOrNone (db.profiles.filter (fun p => p.user_id == uid))
      let senderName :=
        match profile with
        | some p => if truthy (some p.name) then p.name else .str "Seller"
        | none => .str "Seller"
      match jsSlice msg 2000 with
      | none => (dbError, db)
      | some m =>
        let (newId, db1) := takeId db
        let row : MsgRow :=
          { id := newId, conversation_id := convId, sender_id := uid,
            sender_type := "seller", sender_name := senderName, message := m,
            created_at := clock.nowIso }
        let db2 := { db1 with
          chat_messages := db1.chat_messages ++ [row],
          chat_conversations := db1.chat_conversations.map (fun c =>
            if c.id == convId then
              { c with last_message_at := some clock.nowIso, updated_at := clock.nowIso }
            else c) }
        (createdJson row.toJson, db2)

/-- `GET /support/tickets` — the caller's 50 most recent tickets. -/
def hTicketsList (uid : String) (db : Db) : Response × Db :=
  (okJson (.arr (((sortBy (fun a b => strLe b.created_at a.created_at)
    (db.support_tickets.filter (fun t => t.user_id == uid))).take 50).map TicketRow.toJson)), db)

/-- `POST /support/tickets` — open a ticket for the caller (status `open`),
optionally with a first message. -/
def hTicketCreate (clock : Clock) (uid : String) (body : Json) (db : Db) :
    Response × Db :=
  if !(truthy (body.get? "subject")) then (errJson 400 "subject required", db)
  else
    match jsSlice ((body.get? "subject").getD .null) 255 with
    | none => (dbError, db)
    | some subj =>
      let (tid, db1) := takeId db
      let ticket : TicketRow :=
        { id := tid, user_id := uid, subject := subj,
          category := if truthy (body.get? "category") then (body.get? "category").getD .null else .null,
          priority := if truthy (body.get? "priority") then (body.get? "priority").getD .null else .str "normal",
          status := "open", created_at := clock.nowIso, updated_at := clock.nowIso }
      let db2 := { db1 with support_tickets := db1.support_tickets ++ [ticket] }
      if truthy (body.get? "message") then
        match jsSlice ((body.get? "message").getD .null) 5000 with
        | none => (dbError, db2)
        | some m =>
          let (mid, db3) := takeId db2
          let row : SupportMsgRow :=
            { id := mid, ticket_id := ticket.id, sender_id := uid, is_staff := false,
              message := m, created_at := clock.nowIso }
          (createdJson ticket.toJson, { db3 with support_messages := db3.support_messages ++ [row] })
      else (createdJson ticket.toJson, db2)

/-- `GET /support/tickets/:id` — one caller-owned ticket with its messages
oldest first; 404 when it is not the caller's. -/
def hTicketGet (uid ticketId : String) (db : Db) : Response × Db :=
  match uniqueOrNone (db.support_tickets.filter (fun t =>
      t.id == ticketId && t.user_id == uid)) with
  | none => (errJson 404 "Not found", db)
  | some t =>
    let messages := sortBy (fun a b => strLe a.created_at b.created_at)
      (db.support_messages.filter (fun m => m.ticket_id == ticketId))
    (okJson (.obj (t.baseFields ++ [("messages", .arr (messages.map SupportMsgRow.toJson))])), db)

/-- `POST /support/tickets/:id/messages` — append a caller message to a
caller-owned ticket and bump the ticket's `updated_at`. -/
def hTicketMsgPost (clock : Clock) (uid ticketId : String) (body : Json) (db : Db) :
    Response × Db :=
  let msg := (body.get? "message").getD .null
  if !(truthy (some msg)) then (errJson 400 "message required", db)
  else
    match uniqueOrNone (db.support_tickets.filter (fun t =>
        t.id == ticketId && t.user_id == uid)) with
    | none => (errJson 404 "Not found", db)
    | some _ =>
      match jsSlice msg 5000 with
      | none => (dbError, db)
      | some m =>
        let (newId, db1) := takeId db
        let row : SupportMsgRow :=
          { id := newId, ticket_id := ticketId, sender_id := uid, is_staff := false,
            message := m, created_at := clock.nowIso }
        let db2 := { db1 with
          support_messages := db1.support_messages ++ [row],
          support_tickets := db1.support_tickets.map (fun t =>
            if t.id == ticketId then { t with updated_at := clock.nowIso } else t) }
        (createdJson row.toJson, db2)

/-- `POST /financial/payouts/instant` — stub, always 400. -/
def hPayoutsInstant (db : Db) : Response × Db :=
  (errJson 400 "Instant payout requires minimum balance and is available on Pro plan. Use standard withdrawal from Wallet.", db)

/-- `GET /financial/integrations` — the caller's accounting connections. -/
def hIntegrationsList (uid : String) (db : Db) : Response × Db :=
  (okJson (.arr ((db.accounting_integrations.filter (fun i => i.seller_id == uid)).map IntegrationRow.toJson)), db)

/-- `POST /financial/integrations/:id/connect` — stub, always 501. -/
def hIntegrationConnect (provider : String) (db : Db) : Response × Db :=
  (errJson 501 ("Connect " ++ provider ++ ": OAuth integration coming soon. Export data from Financial tab."), db)

/-- `GET /financial/reports/tax` — the same sales/refunds/expense sums over
a year or quarter window; the report carries sums and the taxable income
only (no ratio field). -/
def hTaxReport (clock : Clock) (uid : String) (q : Query) (db : Db) :
    Response × Db :=
  let year? := jsParseInt (orDefault q.year (toString clock.year))
  let yearStr := match year? with | some y => toString y | none => "NaN"
  let quarter := orDefault q.quarter ""
  let window :=
    if quarter == "1" || quarter == "2" || quarter == "3" || quarter == "4" then
      let qn := (jsParseInt quarter).getD 0
      (yearStr ++ "-" ++ pad2 ((qn - 1) * 3 + 1) ++ "-01",
       yearStr ++ "-" ++ pad2 (qn * 3) ++ "-" ++
         (if qn == 2 then "30" else if qn == 4 then "31" else "31"))
    else (yearStr ++ "-01-01", yearStr ++ "-12-31")
  let rows := txInRange uid window.1 window.2 db.transactions
  let totalSales := revenueOf rows
  let totalRefunds := refundsOf rows
  let totalExpenses := expensesTotal (expensesInRange uid window.1 window.2 db.seller_expenses)
  (⟨200, .obj [("success", .bool true), ("data", .obj [
     ("report_type", .str (if !(quarter == "") then "quarterly" else "annual")),
     ("year", match year? with | some y => .num y | none => .null),
     ("quarter",
       if !(quarter == "") then
         match jsParseInt quarter with | some n => .num n | none => .null
       else .null),
     ("total_sales", .num totalSales),
     ("total_refunds", .num totalRefunds),
     ("total_expenses", .num totalExpenses),
     ("taxable_income", .num (totalSales - totalRefunds - totalExpenses)),
     ("status", .str "draft")])]⟩, db)

/-! ### Path normalization, route matching and the dispatcher -/

/-- Path normalization: split the pathname on `/`, drop empty segments,
find the `store-api` segment and keep what follows (so `""` collapses to
`"/"`); a pathname without that segment is used as is. -/
def normalizePath (pathname : String) : String :=
  let parts := (jsSplitSlash pathname).filter (fun s => !(s == ""))
  match parts.findIdx? (fun s => s == "store-api") with
  | some i => "/" ++ String.intercalate "/" (parts.drop (i + 1))
  | none => pathname

/-- One `[a-zA-Z0-9-]+` path segment. -/
def idSeg (s : String) : Bool :=
  !(s == "") && s.data.all (fun c => c.isAlpha || c.isDigit || c == '-')

/-- Match `^/a/ID/z$` (e.g. `/reviews/:id/respond`). -/
def matchMid (path a z : String) : Bool :=
  match jsSplitSlash path with
  | ["", x, i, y] => x == a && y == z && idSeg i
  | _ => false

/-- Match `^/a/b/ID$` (e.g. `/financial/expenses/:id`). -/
def matchTail2 (path a b : String) : Bool :=
  match jsSplitSlash path with
  | ["", x, y, i] => x == a && y == b && idSeg i
  | _ => false

/-- Match `^/a/b/ID/z$` (e.g. `/chat/conversations/:id/messages`). -/
def matchTail2Plus (path a b z : String) : Bool :=
  match jsSplitSlash path with
  | ["", x, y, i, w] => x == a && y == b && idSeg i && w == z
  | _ => false

/-- `path.split("/")[i]` as the source extracts path parameters. -/
def seg (path : String) (i : Nat) : String := (jsSplitSlash path).getD i ""

/-- The route table: match `(method, normalized path)` in source order and
run the handler; an unmatched pair falls through to the 404 catch-all. -/
def dispatchCore (clock : Clock) (uid : String) (m path : String) (body : Json)
    (query : Query) (db : Db) : Response × Db :=
  if m == "GET" && (path == "" || path == "/") then hGetStore uid db
  else if m == "POST" && (path == "" || path == "/") then hCreateStore clock uid body db
  else if m == "PUT" && (path == "" || path == "/") then hUpdateStore clock uid body db
  else if m == "GET" && path == "/products" then hListProducts uid query db
  else if m == "POST" && path == "/products" then hCreateProduct clock uid body db
  else if m == "PUT" && leadsWith "/products/" path then hUpdateProduct clock (path.drop 10) body db
  else if m == "DELETE" && leadsWith "/products/" path then hDeleteProduct (path.drop 10) db
  else if m == "GET" && path == "/social" then hListSocial uid db
  else if m == "POST" && path == "/social" then hCreateSocial uid body db
  else if m == "DELETE" && leadsWith "/social/" path then hDeleteSocial (path.drop 8) db
  else if m == "GET" && path == "/reviews" then hListReviews uid query db
  else if m == "GET" && path == "/reviews/analytics" then hReviewAnalytics clock uid query db
  else if m == "POST" && matchMid path "reviews" "respond" then hRespondReview clock uid (seg path 2) body db
  else if m == "PATCH" && matchMid path "reviews" "status" then hReviewStatus clock uid (seg path 2) body db
  else if m == "GET" && path == "/reviews/requestable-orders" then hRequestableOrders uid db
  else if m == "POST" && path == "/reviews/request" then hReviewRequest clock uid body db
  else if m == "POST" && path == "/reviews/auto-request/config" then hAutoConfigSet clock uid body db
  else if m == "GET" && path == "/reviews/auto-request/config" then hAutoConfigGet uid db
  else if m == "GET" && path == "/reviews/questions" then hListQuestions uid db
  else if m == "POST" && matchMid path "questions" "answer" then hAnswerQuestion uid (seg path 2) body db
  else if m == "POST" && path == "/reviews/bulk-update" then hBulkUpdate clock uid body db
  else if m == "GET" && path == "/financial/dashboard" then hDashboard clock uid query db
  else if m == "GET" && path == "/financial/expenses" then hListExpenses uid query db
  else if m == "POST" && path == "/financial/expenses" then hCreateExpense clock uid body db
  else if m == "PATCH" && matchTail2 path "financial" "expenses" then hPatchExpense clock uid (seg path 3) body db
  else if m == "DELETE" && matchTail2 path "financial" "expenses" then hDeleteExpense clock uid (seg path 3) db
  else if m == "GET" && path == "/financial/reports/profit-loss" then hProfitLoss clock uid query db
  else if m == "GET" && path == "/chat/conversations" then hChatList uid db
  else if m == "GET" && matchTail2 path "chat" "conversations" then hChatGet uid (seg path 3) db
  else if m == "POST" && matchTail2Plus path "chat" "conversations" "messages" then hChatPost clock uid (seg path 3) body db
  else if m == "GET" && path == "/support/tickets" then hTicketsList uid db
  else if m == "POST" && path == "/support/tickets" then hTicketCreate clock uid body db
  else if m == "GET" && matchTail2 path "support" "tickets" then hTicketGet uid (seg path 3) db
  else if m == "POST" && matchTail2Plus path "support" "tickets" "messages" then hTicketMsgPost clock uid (seg path 3) body db
  else if m == "POST" && path == "/financial/payouts/instant" then hPayoutsInstant db
  else if m == "GET" && path == "/financial/integrations" then hIntegrationsList uid db
  else if m == "POST" && matchTail2Plus path "financial" "integrations" "connect" then hIntegrationConnect (seg path 3) db
  else if m == "GET" && path == "/financial/reports/tax" then hTaxReport clock uid query db
  else (errJson 404 "Not found", db)

/-- The dispatcher: normalize the path and look the route up. -/
def dispatch (clock : Clock) (uid : String) (req : Request) (db : Db) :
    Response × Db :=
  dispatchCore clock uid req.method (normalizePath req.pathname) req.body req.query db

/-- The bearer-token check: the `Authorization` header must exist, start
with `Bearer `, and the identity provider (`supabase.auth.getUser`,
modelled by `idp`) must accept the token.  Both failure sites in the source
return the same 401 response. -/
def validBearer (idp : String → Option String) (req : Request) : Option String :=
  match req.authHeader with
  | none => none
  | some h => if leadsWith "Bearer " h then idp (h.drop 7) else none

/-- The entry point (`Deno.serve` callback): answer CORS preflight before
anything else, then authenticate, then dispatch. -/
def handle (idp : String → Option String) (clock : Clock) (req : Request) (db : Db) :
    Response × Db :=
  if req.method == "OPTIONS" then (⟨200, .null⟩, db)
  else
    match validBearer idp req with
    | none => (errJson 401 "Unauthorized", db)
    | some uid => dispatch clock uid req db

/-! ### Basic lemmas about the list primitives -/

theorem insertBy_perm (le : α → α → Bool) (a : α) :
    ∀ l : List α, List.Perm (insertBy le a l) (a :: l) := by
  intro l
  induction l with
  | nil => simp [insertBy]
  | cons b bs ih =>
    unfold insertBy
    split
    · exact List.Perm.refl _
    · exact (ih.cons b).trans (List.Perm.swap a b bs)

theorem sortBy_perm (le : α → α → Bool) : ∀ l : List α, List.Perm (sortBy le l) l := by
  intro l
  induction l with
  | nil => exact List.Perm.refl _
  | cons a as ih => exact (insertBy_perm le a (sortBy le as)).trans (ih.cons a)

theorem sortBy_length (le : α → α → Bool) (l : List α) :
    (sortBy le l).length = l.length :=
  (sortBy_perm le l).length_eq

theorem mem_of_mem_sortBy {le : α → α → Bool} {l : List α} {a : α}
    (h : a ∈ sortBy le l) : a ∈ l :=
  (sortBy_perm le l).mem_iff.mp h

theorem mem_of_mem_rangeSlice {l : List α} {x y : Int} {a : α}
    (h : a ∈ rangeSlice l x y) : a ∈ l :=
  List.drop_subset _ _ (List.take_subset _ _ h)

theorem length_rangeSlice_le (l : List α) (x y : Int) :
    (rangeSlice l x y).length ≤ (y - x + 1).toNat := by
  simp [rangeSlice]

/-- Membership survives a `map` whose function fixes the element. -/
theorem mem_map_of_eq_self {f : α → α} {l : List α} {a : α}
    (ha : a ∈ l) (hfa : f a = a) : a ∈ l.map f := by
  have := List.mem_map_of_mem f ha
  rwa [hfa] at this

/-! ### The ownership invariant (claim C1)

Who owns a row, for the tables whose owner is resolved through a store:
the same chain of unique-row lookups the handlers themselves perform. -/

/-- The seller owning a product, through its store. -/
def ownerOfProduct (db : Db) (p : ProductRow) : Option String :=
  (uniqueOrNone (db.stores.filter (fun s => s.id == p.store_id))).map (fun s => s.seller_id)

/-- The seller owning a social account, through its store. -/
def ownerOfSocial (db : Db) (a : SocialRow) : Option String :=
  (uniqueOrNone (db.stores.filter (fun s => s.id == a.store_id))).map (fun s => s.seller_id)

/-- The seller owning a question, through its product's store (the same
resolution `POST /questions/:id/answer` performs). -/
def ownerOfQuestion (db : Db) (q : QuestionRow) : Option String :=
  match uniqueOrNone (db.products.filter (fun p => p.id == q.product_id)) with
  | some p => (uniqueOrNone (db.stores.filter (fun s => s.id == p.store_id))).map (fun s => s.seller_id)
  | none => none

/-- Every row of `db` that belongs to an identity other than `c` (owners
resolved in `db`) is still present, unchanged, in `db2`.  Append-only
tables (`review_answers`, the message tables, `profiles`, `transactions`)
are stated as full preservation. -/
structure OthersPreserved (c : String) (db db2 : Db) : Prop where
  stores : ∀ r ∈ db.stores, ¬ r.seller_id = c → r ∈ db2.stores
  products : ∀ r ∈ db.products, ¬ ownerOfProduct db r = some c → r ∈ db2.products
  social : ∀ r ∈ db.social_accounts, ¬ ownerOfSocial db r = some c → r ∈ db2.social_accounts
  reviews : ∀ r ∈ db.product_reviews, ¬ r.seller_id = c → r ∈ db2.product_reviews
  requests : ∀ r ∈ db.review_requests, ¬ r.seller_id = c → r ∈ db2.review_requests
  settings : ∀ r ∈ db.seller_review_settings, ¬ r.seller_id = c → r ∈ db2.seller_review_settings
  questions : ∀ r ∈ db.review_questions, ¬ ownerOfQuestion db r = some c → r ∈ db2.review_questions
  answers : ∀ r ∈ db.review_answers, r ∈ db2.review_answers
  tx : ∀ r ∈ db.transactions, r ∈ db2.transactions
  expenses : ∀ r ∈ db.seller_expenses, ¬ r.seller_id = c → r ∈ db2.seller_expenses
  convos : ∀ r ∈ db.chat_conversations, ¬ r.seller_id = c → r ∈ db2.chat_conversations
  chatMsgs : ∀ r ∈ db.chat_messages, r ∈ db2.chat_messages
  tickets : ∀ r ∈ db.support_tickets, ¬ r.user_id = c → r ∈ db2.support_tickets
  supportMsgs : ∀ r ∈ db.support_messages, r ∈ db2.support_messages
  profs : ∀ r ∈ db.profiles, r ∈ db2.profiles
  connections : ∀ r ∈ db.accounting_integrations, ¬ r.seller_id = c → r ∈ db2.accounting_integrations

theorem OthersPreserved.self (c : String) (db : Db) : OthersPreserved c db db :=
  ⟨fun _ hr _ => hr, fun _ hr _ => hr, fun _ hr _ => hr, fun _ hr _ => hr,
   fun _ hr _ => hr, fun _ hr _ => hr, fun _ hr _ => hr, fun _ hr => hr,
   fun _ hr => hr, fun _ hr _ => hr, fun _ hr _ => hr, fun _ hr => hr,
   fun _ hr _ => hr, fun _ hr => hr, fun _ hr => hr, fun _ hr _ => hr⟩

/-- A unique-match lookup over a filter yields a member satisfying the
filter predicate. -/
theorem uniqueOrNone_filter_mem {l : List α} {p : α → Bool} {x : α}
    (h : uniqueOrNone (l.filter p) = some x) : x ∈ l ∧ p x = true := by
  unfold uniqueOrNone at h
  split at h
  · rename_i heq
    cases h
    have : x ∈ l.filter p := by rw [heq]; exact List.mem_singleton_self x
    exact ⟨List.mem_filter.mp this |>.1, List.mem_filter.mp this |>.2⟩
  · cases h

/-! Single-table variants of `OthersPreserved`, matching the database
states each mutating handler produces. -/

theorem OthersPreserved.onlyStores {c : String} {db : Db} {l : List StoreRow} {n : Nat}
    (h : ∀ r ∈ db.stores, ¬ r.seller_id = c → r ∈ l) :
    OthersPreserved c db { db with stores := l, nextId := n } :=
  ⟨h, fun _ hr _ => hr, fun _ hr _ => hr, fun _ hr _ => hr,
   fun _ hr _ => hr, fun _ hr _ => hr, fun _ hr _ => hr, fun _ hr => hr,
   fun _ hr => hr, fun _ hr _ => hr, fun _ hr _ => hr, fun _ hr => hr,
   fun _ hr _ => hr, fun _ hr => hr, fun _ hr => hr, fun _ hr _ => hr⟩

theorem OthersPreserved.onlyProducts {c : String} {db : Db} {l : List ProductRow} {n : Nat}
    (h : ∀ r ∈ db.products, ¬ ownerOfProduct db r = some c → r ∈ l) :
    OthersPreserved c db { db with products := l, nextId := n } :=
  ⟨fun _ hr _ => hr, h, fun _ hr _ => hr, fun _ hr _ => hr,
   fun _ hr _ => hr, fun _ hr _ => hr, fun _ hr _ => hr, fun _ hr => hr,
   fun _ hr => hr, fun _ hr _ => hr, fun _ hr _ => hr, fun _ hr => hr,
   fun _ hr _ => hr, fun _ hr => hr, fun _ hr => hr, fun _ hr _ => hr⟩

theorem OthersPreserved.onlySocial {c : String} {db : Db} {l : List SocialRow} {n : Nat}
    (h : ∀ r ∈ db.social_accounts, ¬ ownerOfSocial db r = some c → r ∈ l) :
    OthersPreserved c db { db with social_accounts := l, nextId := n } :=
  ⟨fun _ hr _ => hr, fun _ hr _ => hr, h, fun _ hr _ => hr,
   fun _ hr _ => hr, fun _ hr _ => hr, fun _ hr _ => hr, fun _ hr => hr,
   fun _ hr => hr, fun _ hr _ => hr, fun _ hr _ => hr, fun _ hr => hr,
   fun _ hr _ => hr, fun _ hr => hr, fun _ hr => hr, fun _ hr _ => hr⟩

theorem OthersPreserved.onlyReviews {c : String} {db : Db} {l : List ReviewRow}
    (h : ∀ r ∈ db.product_reviews, ¬ r.seller_id = c → r ∈ l) :
    OthersPreserved c db { db with product_reviews := l } :=
  ⟨fun _ hr _ => hr, fun _ hr _ => hr, fun _ hr _ => hr, h,
   fun _ hr _ => hr, fun _ hr _ => hr, fun _ hr _ => hr, fun _ hr => hr,
   fun _ hr => hr, fun _ hr _ => hr, fun _ hr _ => hr, fun _ hr => hr,
   fun _ hr _ => hr, fun _ hr => hr, fun _ hr => hr, fun _ hr _ => hr⟩

theorem OthersPreserved.onlyRequests {c : String} {db : Db} {l : List ReviewRequestRow} {n : Nat}
    (h : ∀ r ∈ db.review_requests, ¬ r.seller_id = c → r ∈ l) :
    OthersPreserved c db { db with review_requests := l, nextId := n } :=
  ⟨fun _ hr _ => hr, fun _ hr _ => hr, fun _ hr _ => hr, fun _ hr _ => hr,
   h, fun _ hr _ => hr, fun _ hr _ => hr, fun _ hr => hr,
   fun _ hr => hr, fun _ hr _ => hr, fun _ hr _ => hr, fun _ hr => hr,
   fun _ hr _ => hr, fun _ hr => hr, fun _ hr => hr, fun _ hr _ => hr⟩

theorem OthersPreserved.onlySettings {c : String} {db : Db} {l : List SettingsRow}
    (h : ∀ r ∈ db.seller_review_settings, ¬ r.seller_id = c → r ∈ l) :
    OthersPreserved c db { db with seller_review_settings := l } :=
  ⟨fun _ hr _ => hr, fun _ hr _ => hr, fun _ hr _ => hr, fun _ hr _ => hr,
   fun _ hr _ => hr, h, fun _ hr _ => hr, fun _ hr => hr,
   fun _ hr => hr, fun _ hr _ => hr, fun _ hr _ => hr, fun _ hr => hr,
   fun _ hr _ => hr, fun _ hr => hr, fun _ hr => hr, fun _ hr _ => hr⟩

theorem OthersPreserved.answersAndQuestions {c : String} {db : Db}
    {la : List AnswerRow} {lq : List QuestionRow} {n : Nat}
    (ha : ∀ r ∈ db.review_answers, r ∈ la)
    (hq : ∀ r ∈ db.review_questions, ¬ ownerOfQuestion db r = some c → r ∈ lq) :
    OthersPreserved c db { db with review_answers := la, review_questions := lq, nextId := n } :=
  ⟨fun _ hr _ => hr, fun _ hr _ => hr, fun _ hr _ => hr, fun _ hr _ => hr,
   fun _ hr _ => hr, fun _ hr _ => hr, hq, ha,
   fun _ hr => hr, fun _ hr _ => hr, fun _ hr _ => hr, fun _ hr => hr,
   fun _ hr _ => hr, fun _ hr => hr, fun _ hr => hr, fun _ hr _ => hr⟩

theorem OthersPreserved.onlyExpenses {c : String} {db : Db} {l : List ExpenseRow} {n : Nat}
    (h : ∀ r ∈ db.seller_expenses, ¬ r.seller_id = c → r ∈ l) :
    OthersPreserved c db { db with seller_expenses := l, nextId := n } :=
  ⟨fun _ hr _ => hr, fun _ hr _ => hr, fun _ hr _ => hr, fun _ hr _ => hr,
   fun _ hr _ => hr, fun _ hr _ => hr, fun _ hr _ => hr, fun _ hr => hr,
   fun _ hr => hr, h, fun _ hr _ => hr, fun _ hr => hr,
   fun _ hr _ => hr, fun _ hr => hr, fun _ hr => hr, fun _ hr _ => hr⟩

theorem OthersPreserved.chatTables {c : String} {db : Db}
    {lm : List MsgRow} {lc : List ConvRow} {n : Nat}
    (hm : ∀ r ∈ db.chat_messages, r ∈ lm)
    (hc : ∀ r ∈ db.chat_conversations, ¬ r.seller_id = c → r ∈ lc) :
    OthersPreserved c db { db with chat_messages := lm, chat_conversations := lc, nextId := n } :=
  ⟨fun _ hr _ => hr, fun _ hr _ => hr, fun _ hr _ => hr, fun _ hr _ => hr,
   fun _ hr _ => hr, fun _ hr _ => hr, fun _ hr _ => hr, fun _ hr => hr,
   fun _ hr => hr, fun _ hr _ => hr, hc, hm,
   fun _ hr _ => hr, fun _ hr => hr, fun _ hr => hr, fun _ hr _ => hr⟩

theorem OthersPreserved.supportTables {c : String} {db : Db}
    {lt : List TicketRow} {lm : List SupportMsgRow} {n : Nat}
    (ht : ∀ r ∈ db.support_tickets, ¬ r.user_id = c → r ∈ lt)
    (hm : ∀ r ∈ db.support_messages, r ∈ lm) :
    OthersPreserved c db { db with support_tickets := lt, support_messages := lm, nextId := n } :=
  ⟨fun _ hr _ => hr, fun _ hr _ => hr, fun _ hr _ => hr, fun _ hr _ => hr,
   fun _ hr _ => hr, fun _ hr _ => hr, fun _ hr _ => hr, fun _ hr => hr,
   fun _ hr => hr, fun _ hr _ => hr, fun _ hr _ => hr, fun _ hr => hr,
   ht, hm, fun _ hr => hr, fun _ hr _ => hr⟩

/-! Per-handler preservation lemmas: no handler except
`PUT /products/:id`, `DELETE /products/:id` and `DELETE /social/:id`
touches a row belonging to another identity. -/

theorem pres_hGetStore (uid : String) (db : Db) :
    OthersPreserved uid db (hGetStore uid db).2 := by
  unfold hGetStore
  split <;> exact OthersPreserved.self uid db

theorem pres_hCreateStore (clock : Clock) (uid : String) (body : Json) (db : Db) :
    OthersPreserved uid db (hCreateStore clock uid body db).2 := by
  unfold hCreateStore
  dsimp only [takeId]
  split
  · exact OthersPreserved.self uid db
  split
  · exact OthersPreserved.self uid db
  split
  · exact OthersPreserved.self uid db
  · exact .onlyStores (fun r hr _ => List.mem_append_left _ hr)

theorem pres_hUpdateStore (clock : Clock) (uid : String) (body : Json) (db : Db) :
    OthersPreserved uid db (hUpdateStore clock uid body db).2 := by
  unfold hUpdateStore
  dsimp only [takeId]
  split <;>
    exact .onlyStores (fun r hr h => mem_map_of_eq_self hr (by simp [h]))

theorem pres_hListProducts (uid : String) (q : Query) (db : Db) :
    OthersPreserved uid db (hListProducts uid q db).2 := by
  unfold hListProducts
  dsimp only [takeId]
  split <;> exact OthersPreserved.self uid db

theorem pres_hCreateProduct (clock : Clock) (uid : String) (body : Json) (db : Db) :
    OthersPreserved uid db (hCreateProduct clock uid body db).2 := by
  unfold hCreateProduct
  dsimp only [takeId]
  split
  · exact OthersPreserved.self uid db
  split
  · exact OthersPreserved.self uid db
  · exact .onlyProducts (fun r hr _ => List.mem_append_left _ hr)

theorem pres_hListSocial (uid : String) (db : Db) :
    OthersPreserved uid db (hListSocial uid db).2 := by
  unfold hListSocial
  split <;> exact OthersPreserved.self uid db

theorem pres_hCreateSocial (uid : String) (body : Json) (db : Db) :
    OthersPreserved uid db (hCreateSocial uid body db).2 := by
  unfold hCreateSocial
  dsimp only [takeId]
  split
  · exact OthersPreserved.self uid db
  split
  · exact OthersPreserved.self uid db
  · exact .onlySocial (fun r hr _ => List.mem_append_left _ hr)

theorem pres_hListReviews (uid : String) (q : Query) (db : Db) :
    OthersPreserved uid db (hListReviews uid q db).2 := by
  unfold hListReviews
  dsimp only [takeId]
  split <;> exact OthersPreserved.self uid db

theorem pres_hReviewAnalytics (clock : Clock) (uid : String) (q : Query) (db : Db) :
    OthersPreserved uid db (hReviewAnalytics clock uid q db).2 :=
  OthersPreserved.self uid db

theorem pres_hRespondReview (clock : Clock) (uid reviewId : String) (body : Json) (db : Db) :
    OthersPreserved uid db (hRespondReview clock uid reviewId body db).2 := by
  unfold hRespondReview
  dsimp only [takeId]
  split
  · exact OthersPreserved.self uid db
  split <;>
    exact .onlyReviews (fun r hr h => mem_map_of_eq_self hr (by simp [h]))

theorem pres_hReviewStatus (clock : Clock) (uid reviewId : String) (body : Json) (db : Db) :
    OthersPreserved uid db (hReviewStatus clock uid reviewId body db).2 := by
  unfold hReviewStatus
  dsimp only [takeId]
  split
  · split
    · exact OthersPreserved.self uid db
    split <;>
      exact .onlyReviews (fun r hr h => mem_map_of_eq_self hr (by simp [h]))
  · exact OthersPreserved.self uid db

theorem pres_hRequestableOrders (uid : String) (db : Db) :
    OthersPreserved uid db (hRequestableOrders uid db).2 :=
  OthersPreserved.self uid db

theorem pres_hAutoConfigSet (clock : Clock) (uid : String) (body : Json) (db : Db) :
    OthersPreserved uid db (hAutoConfigSet clock uid body db).2 := by
  unfold hAutoConfigSet
  dsimp only [takeId]
  split <;>
  · refine .onlySettings (fun r hr h => ?_)
    split
    · exact mem_map_of_eq_self hr (by simp [h])
    · exact List.mem_append_left _ hr

theorem pres_hAutoConfigGet (uid : String) (db : Db) :
    OthersPreserved uid db (hAutoConfigGet uid db).2 := by
  unfold hAutoConfigGet
  split <;> exact OthersPreserved.self uid db

theorem pres_hListQuestions (uid : String) (db : Db) :
    OthersPreserved uid db (hListQuestions uid db).2 := by
  unfold hListQuestions
  dsimp only [takeId]
  split
  · exact OthersPreserved.self uid db
  split <;> exact OthersPreserved.self uid db

theorem pres_hBulkUpdate (clock : Clock) (uid : String) (body : Json) (db : Db) :
    OthersPreserved uid db (hBulkUpdate clock uid body db).2 := by
  unfold hBulkUpdate
  dsimp only [takeId]
  split
  · split
    · exact OthersPreserved.self uid db
    · exact .onlyReviews (fun r hr h => mem_map_of_eq_self hr (by simp [h]))
  · exact OthersPreserved.self uid db

theorem pres_hDashboard (clock : Clock) (uid : String) (q : Query) (db : Db) :
    OthersPreserved uid db (hDashboard clock uid q db).2 :=
  OthersPreserved.self uid db

theorem pres_hListExpenses (uid : String) (q : Query) (db : Db) :
    OthersPreserved uid db (hListExpenses uid q db).2 := by
  unfold hListExpenses
  dsimp only [takeId]
  split <;> exact OthersPreserved.self uid db

theorem pres_hCreateExpense (clock : Clock) (uid : String) (body : Json) (db : Db) :
    OthersPreserved uid db (hCreateExpense clock uid body db).2 := by
  unfold hCreateExpense
  dsimp only [takeId]
  split
  · exact OthersPreserved.self uid db
  split
  · exact .onlyExpenses (fun r hr _ => List.mem_append_left _ hr)
  · exact OthersPreserved.self uid db

theorem pres_hPatchExpense (clock : Clock) (uid expenseId : String) (body : Json) (db : Db) :
    OthersPreserved uid db (hPatchExpense clock uid expenseId body db).2 := by
  unfold hPatchExpense
  dsimp only [takeId]
  split
  · exact OthersPreserved.self uid db
  split
  · exact OthersPreserved.self uid db
  split <;>
    exact .onlyExpenses (fun r hr h => mem_map_of_eq_self hr (by simp [h]))

theorem pres_hDeleteExpense (clock : Clock) (uid expenseId : String) (db : Db) :
    OthersPreserved uid db (hDeleteExpense clock uid expenseId db).2 :=
  .onlyExpenses (fun r hr h => mem_map_of_eq_self hr (by simp [h]))

theorem pres_hProfitLoss (clock : Clock) (uid : String) (q : Query) (db : Db) :
    OthersPreserved uid db (hProfitLoss clock uid q db).2 :=
  OthersPreserved.self uid db

theorem pres_hChatList (uid : String) (db : Db) :
    OthersPreserved uid db (hChatList uid db).2 :=
  OthersPreserved.self uid db

theorem pres_hChatGet (uid convId : String) (db : Db) :
    OthersPreserved uid db (hChatGet uid convId db).2 := by
  unfold hChatGet
  dsimp only [takeId]
  split <;> exact OthersPreserved.self uid db

theorem pres_hTicketsList (uid : String) (db : Db) :
    OthersPreserved uid db (hTicketsList uid db).2 :=
  OthersPreserved.self uid db

theorem pres_hTicketGet (uid ticketId : String) (db : Db) :
    OthersPreserved uid db (hTicketGet uid ticketId db).2 := by
  unfold hTicketGet
  dsimp only [takeId]
  split <;> exact OthersPreserved.self uid db

theorem pres_hTicketCreate (clock : Clock) (uid : String) (body : Json) (db : Db) :
    OthersPreserved uid db (hTicketCreate clock uid body db).2 := by
  unfold hTicketCreate
  dsimp only [takeId]
  split
  · exact OthersPreserved.self uid db
  split
  · exact OthersPreserved.self uid db
  split
  · split
    · exact .supportTables (fun r hr _ => List.mem_append_left _ hr) (fun r hr => hr)
    · exact .supportTables (fun r hr _ => List.mem_append_left _ hr) (fun r hr => List.mem_append_left _ hr)
  · exact .supportTables (fun r hr _ => List.mem_append_left _ hr) (fun r hr => hr)

/-- One `POST /reviews/request` iteration only appends review-request rows
and advances the id counter. -/
theorem reviewRequestStep_fst (clock : Clock) (uid : String) (sv d : Json)
    (acc : Db × Nat) (oid : Json) :
    ∃ extra k, (reviewRequestStep clock uid sv d acc oid).1 =
      { acc.1 with review_requests := acc.1.review_requests ++ extra, nextId := k } := by
  rcases acc with ⟨dbA, n⟩
  unfold reviewRequestStep
  dsimp only [takeId]
  split
  · exact ⟨[], dbA.nextId, by simp⟩
  · exact ⟨_, dbA.nextId + 1, rfl⟩

/-- The whole `POST /reviews/request` loop only appends review-request rows
and advances the id counter. -/
theorem reviewRequestFold_shape (clock : Clock) (uid : String) (sv d : Json) :
    ∀ (ids : List Json) (acc : Db × Nat),
      ∃ extra k, (ids.foldl (reviewRequestStep clock uid sv d) acc).1 =
        { acc.1 with review_requests := acc.1.review_requests ++ extra, nextId := k } := by
  intro ids
  induction ids with
  | nil =>
    intro acc
    exact ⟨[], acc.1.nextId, by simp⟩
  | cons oid rest ih =>
    intro acc
    rw [List.foldl_cons]
    obtain ⟨e1, k1, h1⟩ := reviewRequestStep_fst clock uid sv d acc oid
    obtain ⟨e2, k2, h2⟩ := ih (reviewRequestStep clock uid sv d acc oid)
    refine ⟨e1 ++ e2, k2, ?_⟩
    rw [h2, h1]
    simp [List.append_assoc]

theorem pres_hReviewRequest (clock : Clock) (uid : String) (body : Json) (db : Db) :
    OthersPreserved uid db (hReviewRequest clock uid body db).2 := by
  unfold hReviewRequest
  split
  · split
    · exact OthersPreserved.self uid db
    split
    · exact OthersPreserved.self uid db
    · dsimp only
      obtain ⟨extra, k, hk⟩ := reviewRequestFold_shape clock uid
        ((body.get? "send_via").getD (.str "email"))
        ((body.get? "delay_days").getD (.num 0)) (List.take 50 _) (db, 0)
      dsimp only at hk
      rw [hk]
      exact .onlyRequests (fun r hr _ => List.mem_append_left _ hr)
  · exact OthersPreserved.self uid db

theorem pres_hAnswerQuestion (uid questionId : String) (body : Json) (db : Db)
    (hnd : (db.review_questions.map (fun q => q.id)).Nodup) :
    OthersPreserved uid db (hAnswerQuestion uid questionId body db).2 := by
  unfold hAnswerQuestion
  dsimp only [takeId]
  split
  · exact OthersPreserved.self uid db
  split
  · exact OthersPreserved.self uid db
  rename_i qq hq
  split
  · exact OthersPreserved.self uid db
  rename_i st hst
  split
  · exact OthersPreserved.self uid db
  rename_i hsell
  split
  · exact OthersPreserved.self uid db
  · refine OthersPreserved.answersAndQuestions (fun r hr => List.mem_append_left _ hr) ?_
    intro r hr hOwn
    refine mem_map_of_eq_self hr ?_
    have hqq := uniqueOrNone_filter_mem hq
    by_cases hid : r.id = questionId
    · exfalso
      have hrq : r = qq :=
        List.inj_on_of_nodup_map hnd hr hqq.1 (by rw [hid]; exact (beq_iff_eq.mp hqq.2).symm)
      apply hOwn
      rw [hrq]
      unfold ownerOfQuestion
      rcases hprod : uniqueOrNone (db.products.filter (fun p => p.id == qq.product_id)) with _ | p
      · rw [hprod] at hst
        dsimp only at hst
        simp [uniqueOrNone] at hst
      · rw [hprod] at hst
        rw [hprod]
        dsimp only at hst ⊢
        rw [hst]
        have hsu : st.seller_id = uid := by
          simpa using hsell
        simp [hsu]
    · simp [hid]

theorem pres_hChatPost (clock : Clock) (uid convId : String) (body : Json) (db : Db)
    (hnd : (db.chat_conversations.map (fun c => c.id)).Nodup) :
    OthersPreserved uid db (hChatPost clock uid convId body db).2 := by
  unfold hChatPost
  dsimp only [takeId]
  split
  · exact OthersPreserved.self uid db
  split
  · exact OthersPreserved.self uid db
  rename_i c0 hc0
  split
  · exact OthersPreserved.self uid db
  · refine OthersPreserved.chatTables (fun r hr => List.mem_append_left _ hr) ?_
    intro r hr hsel
    refine mem_map_of_eq_self hr ?_
    have hc := uniqueOrNone_filter_mem hc0
    have hc2 : c0.id = convId ∧ c0.seller_id = uid := by
      have := hc.2
      simpa using this
    by_cases hid : r.id = convId
    · exfalso
      have hrc : r = c0 :=
        List.inj_on_of_nodup_map hnd hr hc.1 (by rw [hid, hc2.1])
      exact hsel (by rw [hrc]; exact hc2.2)
    · simp [hid]

theorem pres_hTicketMsgPost (clock : Clock) (uid ticketId : String) (body : Json) (db : Db)
    (hnd : (db.support_tickets.map (fun t => t.id)).Nodup) :
    OthersPreserved uid db (hTicketMsgPost clock uid ticketId body db).2 := by
  unfold hTicketMsgPost
  dsimp only [takeId]
  split
  · exact OthersPreserved.self uid db
  split
  · exact OthersPreserved.self uid db
  rename_i t0 ht0
  split
  · exact OthersPreserved.self uid db
  · refine OthersPreserved.supportTables ?_ (fun r hr => List.mem_append_left _ hr)
    intro r hr hus
    refine mem_map_of_eq_self hr ?_
    have ht := uniqueOrNone_filter_mem ht0
    have ht2 : t0.id = ticketId ∧ t0.user_id = uid := by
      have := ht.2
      simpa using this
    by_cases hid : r.id = ticketId
    · exfalso
      have hrt : r = t0 :=
        List.inj_on_of_nodup_map hnd hr ht.1 (by rw [hid, ht2.1])
      exact hus (by rw [hrt]; exact ht2.2)
    · simp [hid]

theorem pres_hPayoutsInstant (uid : String) (db : Db) :
    OthersPreserved uid db (hPayoutsInstant db).2 :=
  OthersPreserved.self uid db

theorem pres_hIntegrationsList (uid : String) (db : Db) :
    OthersPreserved uid db (hIntegrationsList uid db).2 :=
  OthersPreserved.self uid db

theorem pres_hIntegrationConnect (uid provider : String) (db : Db) :
    OthersPreserved uid db (hIntegrationConnect provider db).2 :=
  OthersPreserved.self uid db

theorem pres_hTaxReport (clock : Clock) (uid : String) (q : Query) (db : Db) :
    OthersPreserved uid db (hTaxReport clock uid q db).2 :=
  OthersPreserved.self uid db

/-- The three routes whose handlers filter by row id alone. -/
def unscopedRoute (req : Request) : Bool :=
  (req.method == "PUT" && leadsWith "/products/" (normalizePath req.pathname)) ||
  (req.method == "DELETE" && leadsWith "/products/" (normalizePath req.pathname)) ||
  (req.method == "DELETE" && leadsWith "/social/" (normalizePath req.pathname))

/-- Peel one route check off the dispatcher's if-chain. -/
theorem peelRoute {c : Bool} {a b : Response × Db} {P : Db → Prop}
    (h1 : c = true → P a.2) (h2 : c = false → P b.2) :
    P (if c then a else b).2 := by
  cases c
  · exact h2 rfl
  · exact h1 rfl

/-- Route-table-wide preservation over the core dispatcher: any route other
than the three unscoped ones leaves every row belonging to another identity
in place.  The uniqueness hypotheses state that row ids are keys in the
three tables whose handlers look a row up by id before an ownership
check. -/
theorem dispatchCore_pres (clock : Clock) (uid : String) (m path : String)
    (body : Json) (query : Query) (db : Db)
    (hndQ : (db.review_questions.map (fun q => q.id)).Nodup)
    (hndC : (db.chat_conversations.map (fun c => c.id)).Nodup)
    (hndT : (db.support_tickets.map (fun t => t.id)).Nodup)
    (hx1 : (m == "PUT" && leadsWith "/products/" path) = false)
    (hx2 : (m == "DELETE" && leadsWith "/products/" path) = false)
    (hx3 : (m == "DELETE" && leadsWith "/social/" path) = false) :
    OthersPreserved uid db (dispatchCore clock uid m path body query db).2 := by
  delta dispatchCore
  refine peelRoute (fun _ => pres_hGetStore uid db) (fun _ => ?_)
  refine peelRoute (fun _ => pres_hCreateStore clock uid body db) (fun _ => ?_)
  refine peelRoute (fun _ => pres_hUpdateStore clock uid body db) (fun _ => ?_)
  refine peelRoute (fun _ => pres_hListProducts uid query db) (fun _ => ?_)
  refine peelRoute (fun _ => pres_hCreateProduct clock uid body db) (fun _ => ?_)
  refine peelRoute (fun hc => absurd (hx1 ▸ hc) Bool.false_ne_true) (fun _ => ?_)
  refine peelRoute (fun hc => absurd (hx2 ▸ hc) Bool.false_ne_true) (fun _ => ?_)
  refine peelRoute (fun _ => pres_hListSocial uid db) (fun _ => ?_)
  refine peelRoute (fun _ => pres_hCreateSocial uid body db) (fun _ => ?_)
  refine peelRoute (fun hc => absurd (hx3 ▸ hc) Bool.false_ne_true) (fun _ => ?_)
  refine peelRoute (fun _ => pres_hListReviews uid query db) (fun _ => ?_)
  refine peelRoute (fun _ => pres_hReviewAnalytics clock uid query db) (fun _ => ?_)
  refine peelRoute (fun _ => pres_hRespondReview clock uid _ body db) (fun _ => ?_)
  refine peelRoute (fun _ => pres_hReviewStatus clock uid _ body db) (fun _ => ?_)
  refine peelRoute (fun _ => pres_hRequestableOrders uid db) (fun _ => ?_)
  refine peelRoute (fun _ => pres_hReviewRequest clock uid body db) (fun _ => ?_)
  refine peelRoute (fun _ => pres_hAutoConfigSet clock uid body db) (fun _ => ?_)
  refine peelRoute (fun _ => pres_hAutoConfigGet uid db) (fun _ => ?_)
  refine peelRoute (fun _ => pres_hListQuestions uid db) (fun _ => ?_)
  refine peelRoute (fun _ => pres_hAnswerQuestion uid _ body db hndQ) (fun _ => ?_)
  refine peelRoute (fun _ => pres_hBulkUpdate clock uid body db) (fun _ => ?_)
  refine peelRoute (fun _ => pres_hDashboard clock uid query db) (fun _ => ?_)
  refine peelRoute (fun _ => pres_hListExpenses uid query db) (fun _ => ?_)
  refine peelRoute (fun _ => pres_hCreateExpense clock uid body db) (fun _ => ?_)
  refine peelRoute (fun _ => pres_hPatchExpense clock uid _ body db) (fun _ => ?_)
  refine peelRoute (fun _ => pres_hDeleteExpense clock uid _ db) (fun _ => ?_)
  refine peelRoute (fun _ => pres_hProfitLoss clock uid query db) (fun _ => ?_)
  refine peelRoute (fun _ => pres_hChatList uid db) (fun _ => ?_)
  refine peelRoute (fun _ => pres_hChatGet uid _ db) (fun _ => ?_)
  refine peelRoute (fun _ => pres_hChatPost clock uid _ body db hndC) (fun _ => ?_)
  refine peelRoute (fun _ => pres_hTicketsList uid db) (fun _ => ?_)
  refine peelRoute (fun _ => pres_hTicketCreate clock uid body db) (fun _ => ?_)
  refine peelRoute (fun _ => pres_hTicketGet uid _ db) (fun _ => ?_)
  refine peelRoute (fun _ => pres_hTicketMsgPost clock uid _ body db hndT) (fun _ => ?_)
  refine peelRoute (fun _ => pres_hPayoutsInstant uid db) (fun _ => ?_)
  refine peelRoute (fun _ => pres_hIntegrationsList uid db) (fun _ => ?_)
  refine peelRoute (fun _ => pres_hIntegrationConnect uid _ db) (fun _ => ?_)
  refine peelRoute (fun _ => pres_hTaxReport clock uid query db) (fun _ => ?_)
  exact OthersPreserved.self uid db

/-- Dispatcher-wide preservation, stated on requests. -/
theorem dispatch_pres (clock : Clock) (uid : String) (req : Request) (db : Db)
    (hndQ : (db.review_questions.map (fun q => q.id)).Nodup)
    (hndC : (db.chat_conversations.map (fun c => c.id)).Nodup)
    (hndT : (db.support_tickets.map (fun t => t.id)).Nodup)
    (hx : unscopedRoute req = false) :
    OthersPreserved uid db (dispatch clock uid req db).2 := by
  unfold unscopedRoute at hx
  simp only [Bool.or_eq_false_iff] at hx
  exact dispatchCore_pres clock uid req.method (normalizePath req.pathname)
    req.body req.query db hndQ hndC hndT hx.1.1 hx.1.2 hx.2

/-! ### Response-field extraction helpers for the claim statements -/

/-- The field `k` of the response body's `data` object. -/
def dataField (r : Response) (k : String) : Option Json :=
  (r.body.get? "data").bind (fun d => d.get? k)

/-- The field `k` of the response body's `data.summary` object. -/
def summaryField (r : Response) (k : String) : Option Json :=
  ((r.body.get? "data").bind (fun d => d.get? "summary")).bind (fun s => s.get? k)

/-- The field `k` of the response body's `data.pagination` object. -/
def paginationField (r : Response) (k : String) : Option Json :=
  ((r.body.get? "data").bind (fun d => d.get? "pagination")).bind (fun s => s.get? k)

/-- The length of a JSON array value. -/
def arrLen : Option Json → Option Nat
  | some (.arr l) => some l.length
  | _ => none

/-! ### Concrete fixtures used by witnesses and counterexamples -/

/-- A fixed clock for concrete evaluations. -/
def clockW : Clock := ⟨"2026-02-01T00:00:00.000Z", 2026, fun _ => "2026-01-02"⟩

/-- A two-user identity provider for concrete evaluations. -/
def idpW : String → Option String := fun t =>
  if t == "tokA" then some "alice" else if t == "tokB" then some "bob" else none

/-- Alice's store. -/
def storeA : StoreRow :=
  { id := "s1", seller_id := "alice", name := .str "A", slug := .str "alpha",
    bio := .null, logo := .null, status := .str "inactive",
    visibility := .str "PRIVATE", updated_at := "2026-01-01" }

/-- A product in Alice's store. -/
def productA : ProductRow :=
  { id := "p1", store_id := "s1", name := .str "P", description := .null,
    price := .null, images := .arr [], status := .str "DRAFT",
    updated_at := "2026-01-01" }

/-- A social account of Alice's store. -/
def socialA : SocialRow :=
  { id := "soc1", store_id := "s1", platform := .str "facebook",
    page_url := .str "fb.example", page_id := .null }

/-- A database where everything belongs to Alice. -/
def dbOwn : Db := { stores := [storeA], products := [productA], social_accounts := [socialA] }

/-- A pending review row for a given id and seller. -/
def mkReview (i seller : String) : ReviewRow :=
  { id := i, seller_id := seller, product_id := "p1", rating := some 5,
    status := "pending", is_published := false, published_at := none,
    moderation_status := "pending", seller_response := .null,
    seller_responded_at := none, seller_responder_id := none,
    is_verified_purchase := false, images := .null, video_url := .null,
    created_at := "2026-01-10", updated_at := "2026-01-10" }

/-- The spec's profit-loss test transaction:
`{amount:100, status:"completed", seller_payout:90, platform_fee:10}`. -/
def txSpec : TxRow :=
  { id := "t1", seller_id := "alice", buyer_id := .null, amount := some 100,
    seller_payout := some 90, platform_fee := some 10, status := some "completed",
    item_name := .null, product_id := none, created_at := "2026-01-10T00:00:00" }

/-- An active expense row owned by Alice. -/
def expenseA : ExpenseRow :=
  { id := "e1", seller_id := "alice", amount := some 50, category := .str "ads",
    description := .str "d", vendor_name := .null, expense_date := "2026-01-10",
    is_tax_deductible := true, status := "active", updated_at := "2026-01-10" }

/-- An unanswered question on Alice's product. -/
def questionA : QuestionRow :=
  { id := "q1", product_id := "p1", is_answered := false, created_at := "2026-01-10" }

/-- Alice's store, product and an unanswered question. -/
def dbQn : Db := { stores := [storeA], products := [productA], review_questions := [questionA] }

/-- Requests used by witnesses and counterexamples. -/
def reqDelProd : Request :=
  { method := "DELETE", pathname := "/store-api/products/p1", authHeader := some "Bearer tokB" }

/-- Bob rewrites Alice's product. -/
def reqPutProd : Request :=
  { method := "PUT", pathname := "/store-api/products/p1", authHeader := some "Bearer tokB",
    body := .obj [("name", .str "hijacked")] }

/-- Bob disconnects Alice's social account. -/
def reqDelSoc : Request :=
  { method := "DELETE", pathname := "/store-api/social/soc1", authHeader := some "Bearer tokB" }

/-- Bob tries to create a store with Alice's slug. -/
def reqSlugPost : Request :=
  { method := "POST", pathname := "/store-api/", authHeader := some "Bearer tokB",
    body := .obj [("name", .str "B"), ("slug", .str "alpha")] }

/-- An authenticated product listing by Alice. -/
def reqListProd : Request :=
  { method := "GET", pathname := "/store-api/products", authHeader := some "Bearer tokA" }

/-- A token-less request. -/
def reqNoAuth : Request := { method := "GET", pathname := "/store-api/products" }

/-- A token-less CORS preflight request. -/
def reqOptionsW : Request := { method := "OPTIONS", pathname := "/store-api/products" }

/-! ### Claim C1 -/

/-- C1, counterexample: the claim that every handler scopes rows by the
caller's identity fails at concrete inputs.  With everything owned by
alice, the caller bob — a different authenticated identity — deletes
alice's product (the row disappears and the handler reports success),
rewrites alice's product name through `PUT /products/:id`, deletes alice's
social account, and bob's store-creation outcome is even determined by a
row of alice's (the slug check), so those reads are not owner-filtered
either. -/
theorem C1_counterexample :
    ownerOfProduct dbOwn productA = some "alice"
    ∧ ownerOfSocial dbOwn socialA = some "alice"
    ∧ (handle idpW clockW reqDelProd dbOwn).2.products = []
    ∧ (handle idpW clockW reqDelProd dbOwn).1.status = 200
    ∧ ((handle idpW clockW reqPutProd dbOwn).2.products.map (fun p => p.name))
        = [.str "hijacked"]
    ∧ (handle idpW clockW reqDelSoc dbOwn).2.social_accounts = []
    ∧ (handle idpW clockW reqSlugPost dbOwn).1 = errJson 400 "Slug already taken" :=
  ⟨rfl, rfl, rfl, rfl, rfl, rfl, rfl⟩

/-- C1 (amended): on every authenticated request whose route is not one of
`PUT /products/:id`, `DELETE /products/:id` or `DELETE /social/:id`, every
row belonging to another identity survives unchanged — those three handlers
filter only by the row id and are the exception.  Row ids are assumed to be
keys of the three tables whose handlers look a row up by id before the
ownership check. -/
theorem C1_owner_scoping (idp : String → Option String) (clock : Clock)
    (req : Request) (db : Db) (uid : String)
    (hndQ : (db.review_questions.map (fun q => q.id)).Nodup)
    (hndC : (db.chat_conversations.map (fun c => c.id)).Nodup)
    (hndT : (db.support_tickets.map (fun t => t.id)).Nodup)
    (hx : unscopedRoute req = false)
    (hauth : validBearer idp req = some uid) :
    OthersPreserved uid db (handle idp clock req db).2 := by
  unfold handle
  rw [hauth]
  split
  · exact OthersPreserved.self uid db
  · exact dispatch_pres clock uid req db hndQ hndC hndT hx

/-- Witness for `C1_owner_scoping` at a concrete request and database. -/
theorem C1_owner_scoping_witness :
    OthersPreserved "alice" dbOwn (handle idpW clockW reqListProd dbOwn).2 :=
  C1_owner_scoping idpW clockW reqListProd dbOwn "alice"
    (by decide) (by decide) (by decide) (by decide) (by decide)

/-! ### Claim C2 -/

/-- Reviews of two different sellers, targeted by one bulk batch. -/
def dbBulk : Db := { product_reviews := [mkReview "r1" "alice", mkReview "r2" "bob"] }

/-- A bulk-update body naming both reviews. -/
def bulkBody : Json :=
  .obj [("review_ids", .arr [.str "r1", .str "r2"]), ("status", .str "approved")]

/-- C2, counterexample: alice's bulk update over the batch [r1, r2] — r2
belonging to bob — mutates only r1, but the response's `updated` field
reports 2, the full batch size; rows of other sellers are not excluded from
the reported count. -/
theorem C2_counterexample :
    ((hBulkUpdate clockW "alice" bulkBody dbBulk).2.product_reviews.map
        (fun r => (r.id, r.seller_id, r.status)))
      = [("r1", "alice", "approved"), ("r2", "bob", "pending")]
    ∧ (hBulkUpdate clockW "alice" bulkBody dbBulk).1.body.get? "updated" = some (.num 2) :=
  ⟨rfl, rfl⟩

/-- C2 (amended): the bulk update mutates only rows whose `seller_id` is
the caller (rows of other sellers survive unchanged, and every caller row
in the batch receives the transition), but the response's `updated` field
reports the requested batch size `review_ids.length`, counting also rows
that belong to other sellers. -/
theorem C2_bulk_update_scoped (clock : Clock) (uid : String) (body : Json) (db : Db)
    (ids : List Json) (s : String)
    (hids : body.get? "review_ids" = some (.arr ids))
    (hs : body.get? "status" = some (.str s))
    (hval : (s == "approved" || s == "rejected") = true) :
    (∀ r ∈ db.product_reviews, ¬ r.seller_id = uid →
        r ∈ (hBulkUpdate clock uid body db).2.product_reviews)
    ∧ (∀ r ∈ (hBulkUpdate clock uid body db).2.product_reviews,
        r.seller_id = uid → ids.any (fun i => Json.str r.id == i) = true →
        r.status = s ∧ r.moderation_status = "reviewed" ∧ r.is_published = (s == "approved"))
    ∧ (hBulkUpdate clock uid body db).1
        = ⟨200, .obj [("success", .bool true), ("updated", .num ids.length)]⟩ := by
  unfold hBulkUpdate
  rw [hids, hs]
  dsimp only
  rw [hval]
  refine ⟨?_, ?_, rfl⟩
  · intro r hr h
    exact mem_map_of_eq_self hr (by simp [h])
  · intro r hr hsel hin
    obtain ⟨r0, hr0, heq⟩ := List.mem_map.mp hr
    by_cases hc : (r0.seller_id == uid && ids.any (fun i => Json.str r0.id == i)) = true
    · rw [if_pos hc] at heq
      subst heq
      exact ⟨rfl, rfl, rfl⟩
    · rw [if_neg hc] at heq
      subst heq
      exact absurd (by simp [hsel, hin]) hc

/-- Witness for `C2_bulk_update_scoped` at the two-seller database: the
response reports the full batch size. -/
theorem C2_bulk_update_scoped_witness :
    (hBulkUpdate clockW "alice" bulkBody dbBulk).1
      = ⟨200, .obj [("success", .bool true),
          ("updated", .num ([Json.str "r1", Json.str "r2"] : List Json).length)]⟩ :=
  (C2_bulk_update_scoped clockW "alice" bulkBody dbBulk
    [.str "r1", .str "r2"] "approved" rfl rfl (by decide)).2.2

/-! ### Claim C4 -/

/-- The spec's dashboard test database: one completed transaction with
amount 100, payout 90, fee 10, and no expenses. -/
def dbTx : Db := { transactions := [txSpec] }

/-- An authenticated dashboard request. -/
def reqDash : Request :=
  { method := "GET", pathname := "/store-api/financial/dashboard",
    authHeader := some "Bearer tokA" }

/-- C4: the dashboard summary satisfies the claimed arithmetic — revenue is
the payout-or-amount sum over completed rows, refunds the amount sum over
refunded rows, commission the fee sum over completed rows, expenses the sum
of active in-range expense amounts, gross_profit = revenue − refunds and
net_profit = gross_profit − expenses — and on the spec's single test
transaction the full dispatcher yields revenue 90, commission 10 and
net_profit 90. -/
theorem C4_dashboard_summary :
    (∀ (clock : Clock) (uid : String) (q : Query) (db : Db),
      summaryField (hDashboard clock uid q db).1 "revenue" =
        some (.num (revenueOf (txInRange uid (clock.agoDate (periodDays q))
          (clock.nowIso.take 10) db.transactions)))
      ∧ summaryField (hDashboard clock uid q db).1 "refunds" =
        some (.num (refundsOf (txInRange uid (clock.agoDate (periodDays q))
          (clock.nowIso.take 10) db.transactions)))
      ∧ summaryField (hDashboard clock uid q db).1 "commission" =
        some (.num (commissionOf (txInRange uid (clock.agoDate (periodDays q))
          (clock.nowIso.take 10) db.transactions)))
      ∧ summaryField (hDashboard clock uid q db).1 "expenses" =
        some (.num (expensesTotal (expensesInRange uid (clock.agoDate (periodDays q))
          (clock.nowIso.take 10) db.seller_expenses)))
      ∧ summaryField (hDashboard clock uid q db).1 "gross_profit" =
        some (.num (revenueOf (txInRange uid (clock.agoDate (periodDays q))
            (clock.nowIso.take 10) db.transactions)
          - refundsOf (txInRange uid (clock.agoDate (periodDays q))
            (clock.nowIso.take 10) db.transactions)))
      ∧ summaryField (hDashboard clock uid q db).1 "net_profit" =
        some (.num (revenueOf (txInRange uid (clock.agoDate (periodDays q))
            (clock.nowIso.take 10) db.transactions)
          - refundsOf (txInRange uid (clock.agoDate (periodDays q))
            (clock.nowIso.take 10) db.transactions)
          - expensesTotal (expensesInRange uid (clock.agoDate (periodDays q))
            (clock.nowIso.take 10) db.seller_expenses))))
    ∧ summaryField (handle idpW clockW reqDash dbTx).1 "revenue" = some (.num 90)
    ∧ summaryField (handle idpW clockW reqDash dbTx).1 "commission" = some (.num 10)
    ∧ summaryField (handle idpW clockW reqDash dbTx).1 "net_profit" = some (.num 90) :=
  ⟨fun _ _ _ _ => ⟨rfl, rfl, rfl, rfl, rfl, rfl⟩, rfl, rfl, rfl⟩

/-! ### Claim C5 -/

/-- An authenticated tax-report request. -/
def reqTax : Request :=
  { method := "GET", pathname := "/store-api/financial/reports/tax",
    authHeader := some "Bearer tokA" }

/-- C5, counterexample: on an empty database the tax-report window revenue
is 0, yet the tax report's response carries no `profit_margin` (or any
ratio) field at all, so the claim that all three financial reports report
the string `"0"` fails for `GET /financial/reports/tax`. -/
theorem C5_counterexample :
    revenueOf (txInRange "alice" "2026-01-01" "2026-12-31" (({} : Db)).transactions) = 0
    ∧ dataField (handle idpW clockW reqTax {}).1 "profit_margin" = none
    ∧ (handle idpW clockW reqTax {}).1.status = 200
    ∧ (handle idpW clockW reqTax {}).1.body.get? "success" = some (.bool true) :=
  ⟨rfl, rfl, rfl, rfl⟩

/-- C5 (amended): when the in-range completed revenue is 0, the dashboard
and the profit-loss report both report `profit_margin` as the string `"0"`
(the guarded branch, no division); the tax report computes only sums and
differences and carries no ratio field at all, so no division by zero can
occur in any of the three. -/
theorem C5_zero_revenue_margins (clock : Clock) (uid : String) (q : Query) (db : Db) :
    (revenueOf (txInRange uid (clock.agoDate (periodDays q))
        (clock.nowIso.take 10) db.transactions) = 0 →
      summaryField (hDashboard clock uid q db).1 "profit_margin" = some (.str "0"))
    ∧ (revenueOf (txInRange uid (orDefault q.start_date (clock.agoDate 30))
        (orDefault q.end_date (clock.nowIso.take 10)) db.transactions) = 0 →
      dataField (hProfitLoss clock uid q db).1 "profit_margin" = some (.str "0"))
    ∧ dataField (hTaxReport clock uid q db).1 "profit_margin" = none := by
  refine ⟨fun h => ?_, fun h => ?_, rfl⟩
  · have hs : summaryField (hDashboard clock uid q db).1 "profit_margin"
        = some (.str (profitMarginStr
            (revenueOf (txInRange uid (clock.agoDate (periodDays q))
                (clock.nowIso.take 10) db.transactions)
              - refundsOf (txInRange uid (clock.agoDate (periodDays q))
                (clock.nowIso.take 10) db.transactions)
              - expensesTotal (expensesInRange uid (clock.agoDate (periodDays q))
                (clock.nowIso.take 10) db.seller_expenses))
            (revenueOf (txInRange uid (clock.agoDate (periodDays q))
              (clock.nowIso.take 10) db.transactions)))) := rfl
    rw [hs, h]
    simp [profitMarginStr]
  · have hs : dataField (hProfitLoss clock uid q db).1 "profit_margin"
        = some (.str (profitMarginStr
            (revenueOf (txInRange uid (orDefault q.start_date (clock.agoDate 30))
                (orDefault q.end_date (clock.nowIso.take 10)) db.transactions)
              - refundsOf (txInRange uid (orDefault q.start_date (clock.agoDate 30))
                (orDefault q.end_date (clock.nowIso.take 10)) db.transactions)
              - expensesTotal (expensesInRange uid (orDefault q.start_date (clock.agoDate 30))
                (orDefault q.end_date (clock.nowIso.take 10)) db.seller_expenses))
            (revenueOf (txInRange uid (orDefault q.start_date (clock.agoDate 30))
              (orDefault q.end_date (clock.nowIso.take 10)) db.transactions)))) := rfl
    rw [hs, h]
    simp [profitMarginStr]

/-- Witness for `C5_zero_revenue_margins` on an empty database. -/
theorem C5_zero_revenue_margins_witness :
    summaryField (hDashboard clockW "alice" {} ({} : Db)).1 "profit_margin" = some (.str "0")
    ∧ dataField (hProfitLoss clockW "alice" {} ({} : Db)).1 "profit_margin" = some (.str "0") :=
  ⟨(C5_zero_revenue_margins clockW "alice" {} {}).1 rfl,
   (C5_zero_revenue_margins clockW "alice" {} {}).2.1 rfl⟩

/-! ### Claim C3 -/

/-- C3: creating a store with `name` and `slug` present returns 400
`"User already has a store"` when the caller already has one, and 400
`"Slug already taken"` when the caller has none but the slug is in use;
in both cases the returned database is the input database, so no store
row is inserted. -/
theorem C3_store_conflicts (clock : Clock) (uid : String) (body : Json) (db : Db)
    (s t : StoreRow)
    (hname : truthy (body.get? "name") = true)
    (hslug : truthy (body.get? "slug") = true) :
    (db.stores.filter (fun st => st.seller_id == uid) = [s] →
      hCreateStore clock uid body db = (errJson 400 "User already has a store", db))
    ∧ (db.stores.filter (fun st => st.seller_id == uid) = [] →
       db.stores.filter (fun st => st.slug == (body.get? "slug").getD .null) = [t] →
       hCreateStore clock uid body db = (errJson 400 "Slug already taken", db)) := by
  constructor
  · intro hmine
    unfold hCreateStore
    dsimp only
    rw [hname, hslug, hmine]
    rfl
  · intro hnone hhit
    unfold hCreateStore
    dsimp only
    rw [hname, hslug, hnone, hhit]
    rfl

/-- Witness for `C3_store_conflicts`: both conflict outcomes at concrete
inputs. -/
theorem C3_store_conflicts_witness :
    hCreateStore clockW "alice" (.obj [("name", .str "X"), ("slug", .str "zz")]) dbOwn
      = (errJson 400 "User already has a store", dbOwn)
    ∧ hCreateStore clockW "bob" (.obj [("name", .str "X"), ("slug", .str "alpha")]) dbOwn
      = (errJson 400 "Slug already taken", dbOwn) :=
  ⟨(C3_store_conflicts clockW "alice" (.obj [("name", .str "X"), ("slug", .str "zz")])
      dbOwn storeA storeA (by decide) (by decide)).1 rfl,
   (C3_store_conflicts clockW "bob" (.obj [("name", .str "X"), ("slug", .str "alpha")])
      dbOwn storeA storeA (by decide) (by decide)).2 rfl rfl⟩

/-! ### Claim C6 -/

/-- C6, counterexample: a request without any bearer token whose method is
`OPTIONS` is answered 200 (the CORS preflight branch runs before the
authentication check), not 401 — so the claim's "regardless of the
request's method" fails. -/
theorem C6_counterexample :
    validBearer idpW reqOptionsW = none
    ∧ (handle idpW clockW reqOptionsW dbOwn).1.status = 200
    ∧ ¬ (handle idpW clockW reqOptionsW dbOwn).1.status = 401 :=
  ⟨rfl, rfl, by decide⟩

/-- C6 (amended): every non-`OPTIONS` request without a valid bearer token
is answered 401 with `success:false`, and the database is untouched (no
route handler runs); `OPTIONS` preflight requests bypass authentication. -/
theorem C6_auth_gate (idp : String → Option String) (clock : Clock)
    (req : Request) (db : Db)
    (hm : (req.method == "OPTIONS") = false)
    (ha : validBearer idp req = none) :
    handle idp clock req db = (errJson 401 "Unauthorized", db) := by
  unfold handle
  rw [hm, ha]
  rfl

/-- Witness for `C6_auth_gate` at a concrete token-less request. -/
theorem C6_auth_gate_witness :
    handle idpW clockW reqNoAuth dbOwn = (errJson 401 "Unauthorized", dbOwn) :=
  C6_auth_gate idpW clockW reqNoAuth dbOwn (by decide) (by decide)

/-! ### Claim C7 -/

/-- The `(t + b - 1) / b` form the page count computes is the exact
ceiling of `t / b`. -/
theorem natCeilDiv_eq (t b : ℕ) (hb : 0 < b) :
    (t + b - 1) / b = ⌈(t : ℚ) / (b : ℚ)⌉₊ := by
  have hbQ : (0 : ℚ) < b := by exact_mod_cast hb
  refine Nat.le_antisymm ?_ ?_
  · rw [Nat.div_le_iff_le_mul_add_pred hb]
    have h1 : (t : ℚ) ≤ (⌈(t : ℚ) / b⌉₊ : ℚ) * b := by
      have hc := Nat.le_ceil ((t : ℚ) / b)
      calc (t : ℚ) = (t : ℚ) / b * b := by field_simp
        _ ≤ (⌈(t : ℚ) / b⌉₊ : ℚ) * b := mul_le_mul_of_nonneg_right hc (le_of_lt hbQ)
    have h2 : t ≤ ⌈(t : ℚ) / b⌉₊ * b := by exact_mod_cast h1
    rw [Nat.mul_comm] at h2
    generalize hm : b * ⌈(t : ℚ) / b⌉₊ = m at h2 ⊢
    omega
  · refine Nat.ceil_le.mpr ?_
    rw [div_le_iff₀ hbQ]
    have key : t ≤ (t + b - 1) / b * b := by
      have hdm := Nat.div_add_mod' (t + b - 1) b
      have hmod : (t + b - 1) % b < b := Nat.mod_lt _ hb
      generalize hq : (t + b - 1) / b * b = m at hdm ⊢
      generalize hr : (t + b - 1) % b = r at hdm hmod
      omega
    exact_mod_cast key

/-- `Math.ceil(t / l)` as the handlers compute page counts equals the
rational ceiling, for a positive limit. -/
theorem jsCeilDiv_eq_ceil (t : ℕ) (l : Int) (hl : 1 ≤ l) :
    jsCeilDiv t l = (⌈(t : ℚ) / (l : ℚ)⌉₊ : Int) := by
  unfold jsCeilDiv
  rw [if_pos (by omega : (0 : ℤ) < l)]
  have hb : 0 < l.toNat := by omega
  rw [natCeilDiv_eq t l.toNat hb]
  have hcast : ((l.toNat : ℕ) : ℚ) = (l : ℚ) := by
    exact_mod_cast Int.toNat_of_nonneg (by omega : (0 : ℤ) ≤ l)
  rw [hcast]

/-- C7: on `GET /reviews` and `GET /financial/expenses` with numeric page
and limit parameters, page ≥ 1 and requested limit ≥ 1: the effective
limit is `min lim 100`, hence at most 100 even when a larger limit is
requested; the pagination object's `pages` equals the exact ceiling of
`total / limit`; and the returned row array never exceeds 100 entries. -/
theorem C7_pagination (uid : String) (q : Query) (db : Db) (page lim : Int)
    (hp : jsParseInt (orDefault q.page "1") = some page)
    (hl : jsParseInt (orDefault q.limit "50") = some lim)
    (hp1 : 1 ≤ page) (hl1 : 1 ≤ lim) :
    (paginationField (hListReviews uid q db).1 "limit" = some (.num (min lim 100))
     ∧ min lim 100 ≤ 100
     ∧ paginationField (hListReviews uid q db).1 "pages"
         = some (.num (⌈((reviewsSorted uid q db).length : ℚ) / ((min lim 100 : Int) : ℚ)⌉₊))
     ∧ ∃ n : Nat, arrLen (dataField (hListReviews uid q db).1 "reviews") = some n ∧ n ≤ 100)
    ∧ (paginationField (hListExpenses uid q db).1 "limit" = some (.num (min lim 100))
     ∧ paginationField (hListExpenses uid q db).1 "pages"
         = some (.num (⌈((sortBy (fun a b => strLe b.expense_date a.expense_date)
             (expensesFiltered uid q db)).length : ℚ) / ((min lim 100 : Int) : ℚ)⌉₊))
     ∧ ∃ n : Nat, arrLen (dataField (hListExpenses uid q db).1 "expenses") = some n ∧ n ≤ 100) := by
  have hmin1 : (1 : ℤ) ≤ min lim 100 := le_min hl1 (by norm_num)
  have hcap : min lim 100 ≤ 100 := min_le_right _ _
  constructor
  · unfold hListReviews
    rw [hp, hl]
    dsimp only [Option.map]
    refine ⟨rfl, hcap, ?_, ?_⟩
    · rw [← jsCeilDiv_eq_ceil (reviewsSorted uid q db).length (min lim 100) hmin1]
      rfl
    · refine ⟨_, rfl, ?_⟩
      rw [List.length_map]
      have h5 := length_rangeSlice_le (reviewsSorted uid q db)
        ((page - 1) * min lim 100) (page * min lim 100 - 1)
      have harith2 : (page * min lim 100 - 1 - ((page - 1) * min lim 100) + 1)
          = min lim 100 := by ring
      rw [harith2] at h5
      exact le_trans h5 (by omega)
  · unfold hListExpenses
    rw [hp, hl]
    dsimp only [Option.map]
    refine ⟨rfl, ?_, ?_⟩
    · rw [← jsCeilDiv_eq_ceil (sortBy (fun a b => strLe b.expense_date a.expense_date)
        (expensesFiltered uid q db)).length (min lim 100) hmin1]
      rfl
    · refine ⟨_, rfl, ?_⟩
      rw [List.length_map]
      have h5 := length_rangeSlice_le (sortBy (fun a b => strLe b.expense_date a.expense_date)
        (expensesFiltered uid q db))
        ((page - 1) * min lim 100) (page * min lim 100 - 1)
      have harith2 : (page * min lim 100 - 1 - ((page - 1) * min lim 100) + 1)
          = min lim 100 := by ring
      rw [harith2] at h5
      exact le_trans h5 (by omega)

/-- Witness for `C7_pagination`: a request for limit 250 on a five-review
database. -/
theorem C7_pagination_witness :
    paginationField (hListReviews "alice" { page := some "1", limit := some "250" }
      { product_reviews := [mkReview "r1" "alice", mkReview "r2" "alice",
          mkReview "r3" "alice", mkReview "r4" "alice", mkReview "r5" "alice"] }).1 "limit"
      = some (.num 100) :=
  (C7_pagination "alice" { page := some "1", limit := some "250" }
    { product_reviews := [mkReview "r1" "alice", mkReview "r2" "alice",
        mkReview "r3" "alice", mkReview "r4" "alice", mkReview "r5" "alice"] }
    1 250 (by decide) (by decide) (by decide) (by decide)).1.1

/-! ### Claim C8 -/

/-- Membership in an optionally-applied filter implies membership in the
underlying list. -/
theorem mem_of_ite_filter {p : α → Bool} {l : List α} {c : Bool} {a : α}
    (h : a ∈ if c = true then l.filter p else l) : a ∈ l := by
  split at h
  · exact (List.mem_filter.mp h).1
  · exact h

/-- A row of the expense-listing filter chain is a stored row that is the
caller's and active. -/
theorem mem_expensesFiltered {uid : String} {q : Query} {db : Db} {r : ExpenseRow}
    (h : r ∈ expensesFiltered uid q db) :
    r ∈ db.seller_expenses ∧ (r.seller_id == uid && r.status == "active") = true := by
  unfold expensesFiltered at h
  dsimp only at h
  replace h := mem_of_ite_filter h
  replace h := mem_of_ite_filter h
  replace h := mem_of_ite_filter h
  exact ⟨(List.mem_filter.mp h).1, (List.mem_filter.mp h).2⟩

/-- Soft-deleting one caller-owned expense makes the in-range active rows
exactly the previous ones without that id, provided every row carrying that
id is the caller's. -/
theorem del_range_eq (uid i now s en : String) :
    ∀ l : List ExpenseRow,
      (∀ r ∈ l, r.id = i → r.seller_id = uid) →
      expensesInRange uid s en (l.map (fun e =>
        if e.id == i && e.seller_id == uid then
          { e with status := "deleted", updated_at := now } else e))
        = expensesInRange uid s en (l.filter (fun r => !(r.id == i))) := by
  intro l
  induction l with
  | nil => intro _; rfl
  | cons a t ih =>
    intro hpre
    have ht : ∀ r ∈ t, r.id = i → r.seller_id = uid :=
      fun r hr => hpre r (List.mem_cons_of_mem a hr)
    have iht := ih ht
    unfold expensesInRange at iht ⊢
    by_cases ha : a.id = i
    · have hsel : a.seller_id = uid := hpre a (List.mem_cons_self a t) ha
      rw [List.map_cons, if_pos (by simp [ha, hsel])]
      rw [List.filter_cons]
      rw [if_neg (by simp)]
      rw [show List.filter (fun r => !(r.id == i)) (a :: t)
            = List.filter (fun r => !(r.id == i)) t by
          rw [List.filter_cons, if_neg (by simp [ha])]]
      exact iht
    · rw [List.map_cons, if_neg (by simp [ha])]
      rw [show List.filter (fun r => !(r.id == i)) (a :: t)
            = a :: List.filter (fun r => !(r.id == i)) t by
          rw [List.filter_cons, if_pos (by simp [ha])]]
      rw [List.filter_cons, List.filter_cons]
      rw [iht]

/-- C8: deleting a caller-owned expense is a soft delete — the stored row
count is unchanged, every stored row with that id now has status
`deleted`, the expense no longer appears in the `GET /financial/expenses`
filter chain (nor in any page slice of it), and the dashboard's in-range
active rows (hence their sum) are exactly the previous ones without that
id.  Expense ids are assumed unique. -/
theorem C8_soft_delete (clock : Clock) (uid i : String) (db : Db) (e : ExpenseRow)
    (he : e ∈ db.seller_expenses) (hid : e.id = i) (hsel : e.seller_id = uid)
    (hnd : (db.seller_expenses.map (fun x => x.id)).Nodup) :
    ((hDeleteExpense clock uid i db).2.seller_expenses.length = db.seller_expenses.length)
    ∧ (∀ r ∈ (hDeleteExpense clock uid i db).2.seller_expenses, r.id = i → r.status = "deleted")
    ∧ (∀ q2 : Query, ∀ r ∈ expensesFiltered uid q2 (hDeleteExpense clock uid i db).2, ¬ r.id = i)
    ∧ (∀ q2 : Query, ∀ x y : Int, ∀ r ∈ rangeSlice
        (sortBy (fun a b => strLe b.expense_date a.expense_date)
          (expensesFiltered uid q2 (hDeleteExpense clock uid i db).2)) x y, ¬ r.id = i)
    ∧ (∀ s en : String,
        expensesInRange uid s en (hDeleteExpense clock uid i db).2.seller_expenses
          = expensesInRange uid s en (db.seller_expenses.filter (fun r => !(r.id == i))))
    ∧ (∀ s en : String,
        expensesTotal (expensesInRange uid s en (hDeleteExpense clock uid i db).2.seller_expenses)
          = expensesTotal (expensesInRange uid s en
              (db.seller_expenses.filter (fun r => !(r.id == i))))) := by
  have hpre : ∀ r ∈ db.seller_expenses, r.id = i → r.seller_id = uid := by
    intro r hr hri
    have : r = e := List.inj_on_of_nodup_map hnd hr he (by rw [hri, hid])
    rw [this]
    exact hsel
  have hdel : ∀ r ∈ (hDeleteExpense clock uid i db).2.seller_expenses,
      r.id = i → r.status = "deleted" := by
    intro r hr hri
    obtain ⟨r0, hr0, heq⟩ := List.mem_map.mp hr
    by_cases hc : (r0.id == i && r0.seller_id == uid) = true
    · rw [if_pos hc] at heq
      rw [← heq]
    · rw [if_neg hc] at heq
      subst heq
      exact absurd (by simp [hri, hpre r0 hr0 hri]) hc
  have hfiltered : ∀ q2 : Query, ∀ r ∈ expensesFiltered uid q2 (hDeleteExpense clock uid i db).2,
      ¬ r.id = i := by
    intro q2 r hr hri
    obtain ⟨hmem, hact⟩ := mem_expensesFiltered hr
    have hstat : r.status = "deleted" := hdel r hmem hri
    simp [hstat] at hact
  refine ⟨by simp [hDeleteExpense], hdel, hfiltered, ?_, ?_, ?_⟩
  · intro q2 x y r hr
    exact hfiltered q2 r (mem_of_mem_sortBy (mem_of_mem_rangeSlice hr))
  · intro s en
    exact del_range_eq uid i clock.nowIso s en db.seller_expenses hpre
  · intro s en
    exact congrArg expensesTotal (del_range_eq uid i clock.nowIso s en db.seller_expenses hpre)

/-- Witness for `C8_soft_delete` on a one-expense database. -/
theorem C8_soft_delete_witness :
    (hDeleteExpense clockW "alice" "e1" { seller_expenses := [expenseA] }).2.seller_expenses.length
      = ({ seller_expenses := [expenseA] } : Db).seller_expenses.length :=
  (C8_soft_delete clockW "alice" "e1" { seller_expenses := [expenseA] } expenseA
    (by simp) (by decide) (by decide) (by decide)).1

/-! ### Claim C9 -/

/-- C9: answering an existing question with a valid (≥ 5 characters)
answer: a caller who is not the seller of the store owning the question's
product gets 403 and the database — in particular the answers table — is
untouched; the owning seller gets 200, an official seller answer row is
appended, and every stored question with that id is marked answered. -/
theorem C9_answer_authorization (uid qid : String) (body : Json) (db : Db)
    (qq : QuestionRow) (ansS : String)
    (hq : uniqueOrNone (db.review_questions.filter (fun x => x.id == qid)) = some qq)
    (hans : body.get? "answer" = some (.str ansS))
    (hlen : 5 ≤ (ansS.data.length : Int)) :
    (¬ ownerOfQuestion db qq = some uid →
      hAnswerQuestion uid qid body db = (errJson 403 "Unauthorized", db))
    ∧ (ownerOfQuestion db qq = some uid →
      (hAnswerQuestion uid qid body db).1.status = 200
      ∧ (∃ row : AnswerRow,
          (hAnswerQuestion uid qid body db).2.review_answers = db.review_answers ++ [row]
          ∧ row.is_official = true ∧ row.answerer_id = uid
          ∧ row.answerer_type = "seller" ∧ row.question_id = qid)
      ∧ (∀ x ∈ (hAnswerQuestion uid qid body db).2.review_questions,
          x.id = qid → x.is_answered = true)) := by
  have hne : (ansS == "") = false := by
    refine beq_eq_false_iff_ne.mpr (fun h => ?_)
    rw [h] at hlen
    simp at hlen
  have hlt : decide ((ansS.data.length : Int) < 5) = false :=
    decide_eq_false (not_lt.mpr hlen)
  have hlen2 : 5 ≤ ansS.length := by
    have h5 : 5 ≤ ansS.data.length := by exact_mod_cast hlen
    exact h5
  unfold hAnswerQuestion
  rw [hans]
  dsimp only [takeId, Option.getD, truthy, jsLength]
  rw [if_neg (by simp [hne, hlt, hlen2])]
  rw [hq]
  dsimp only
  constructor
  · intro hOwn
    rcases hprod : uniqueOrNone (db.products.filter (fun p => p.id == qq.product_id)) with _ | p
    · rw [hprod]
      dsimp only
      simp only [List.filter_false]
      rfl
    · rw [hprod]
      dsimp only
      rcases hst : uniqueOrNone (db.stores.filter (fun s => s.id == p.store_id)) with _ | st
      · rw [hst]
      · rw [hst]
        dsimp only
        have hnm : ¬ st.seller_id = uid := by
          intro h
          apply hOwn
          unfold ownerOfQuestion
          rw [hprod]
          dsimp only
          rw [hst]
          simp [h]
        rw [if_pos (by simp [hnm])]
  · intro hOwn
    rcases hprod : uniqueOrNone (db.products.filter (fun p => p.id == qq.product_id)) with _ | p
    · unfold ownerOfQuestion at hOwn
      rw [hprod] at hOwn
      dsimp only at hOwn
      simp at hOwn
    · unfold ownerOfQuestion at hOwn
      rw [hprod] at hOwn
      dsimp only at hOwn
      rcases hst : uniqueOrNone (db.stores.filter (fun s => s.id == p.store_id)) with _ | st
      · rw [hst] at hOwn
        simp at hOwn
      · rw [hst] at hOwn
        simp at hOwn
        have hsu : st.seller_id = uid := hOwn
        rw [hprod]
        dsimp only
        rw [hst]
        dsimp only
        rw [if_neg (by simp [hsu])]
        refine ⟨rfl, ⟨_, rfl, rfl, rfl, rfl, rfl⟩, ?_⟩
        intro x hx hxid
        obtain ⟨x0, hx0, heq⟩ := List.mem_map.mp hx
        by_cases hc : (x0.id == qid) = true
        · rw [if_pos hc] at heq
          rw [← heq]
        · rw [if_neg hc] at heq
          subst heq
          exact absurd (by simp [hxid]) hc

/-- Witness for `C9_answer_authorization`: bob is not the seller of the
store owning the question's product, so his answer is rejected with 403. -/
theorem C9_answer_authorization_witness :
    hAnswerQuestion "bob" "q1" (.obj [("answer", .str "hello there")]) dbQn
      = (errJson 403 "Unauthorized", dbQn) :=
  (C9_answer_authorization "bob" "q1" (.obj [("answer", .str "hello there")]) dbQn
    questionA "hello there" rfl rfl (by decide)).1 (by decide)

/-! ### Claim C10 -/

/-- C10: for a caller with no store, `GET /products`, `GET /social` and
`GET /reviews/questions` all answer 200 with `success:true` and an empty
data array, and leave the database untouched. -/
theorem C10_no_store_empty_lists (uid : String) (q : Query) (db : Db)
    (h : db.stores.filter (fun s => s.seller_id == uid) = []) :
    hListProducts uid q db = (okJson (.arr []), db)
    ∧ hListSocial uid db = (okJson (.arr []), db)
    ∧ hListQuestions uid db = (okJson (.arr []), db) := by
  refine ⟨?_, ?_, ?_⟩
  · unfold hListProducts
    dsimp only
    rw [h]
    rfl
  · unfold hListSocial
    rw [h]
    rfl
  · unfold hListQuestions
    rw [h]
    rfl

/-- Witness for `C10_no_store_empty_lists`: bob has no store in `dbOwn`. -/
theorem C10_no_store_empty_lists_witness :
    hListProducts "bob" {} dbOwn = (okJson (.arr []), dbOwn)
    ∧ hListSocial "bob" dbOwn = (okJson (.arr []), dbOwn)
    ∧ hListQuestions "bob" dbOwn = (okJson (.arr []), dbOwn) :=
  C10_no_store_empty_lists "bob" {} dbOwn rfl

end StoreApi
